import Mathlib

/-!
Shallow embedding of the relay-broker WebSocket server (src/server.js).

The source file contains two variants of the server separated by a document
separator: the first variant (lines 1-454) carries the full pairing protocol
(`reconnect`, `heartbeat`, `accStatus`, `logout`, `deviceSelected`,
`connection`, `nfc`, the close reconciliation and both liveness sweeps); the
second variant (lines 455-643) is a reduced server with `reconnect`,
`heartbeat`, `nfc` and `accStatus` only, and an early return on JSON parse
failure.

JavaScript `Map`s are modelled as association lists with JS semantics:
`set` replaces in place keeping insertion order, otherwise appends;
iteration follows insertion order.  JS string-or-null-or-undefined values
(message fields, stored `userID`s) are modelled by `JVal`, with JS
truthiness (`null`, `undefined` and `""` are falsy).  A handler that would
raise an uncaught exception (e.g. a property access on `undefined`) returns
`none`.
-/

namespace PpeRelay

/-- A JS value that is a string, `null`, or `undefined` (absent field). -/
inductive JVal where
  | undef
  | null
  | str (s : String)
deriving DecidableEq, Repr

/-- JS truthiness for `JVal`: only a non-empty string is truthy. -/
def JVal.truthy : JVal → Bool
  | .str s => decide (s ≠ "")
  | _ => false

/-- JS `a || b`: `a` when truthy, otherwise `b`. -/
def jvalOr (a b : JVal) : JVal := if a.truthy then a else b

/-- First binding of key `k` (JS `Map.get`; keys are unique in a JS Map,
so the first binding is the binding). -/
def mapGet {α β : Type} [DecidableEq α] : List (α × β) → α → Option β
  | [], _ => none
  | (k', v) :: rest, k => if k' = k then some v else mapGet rest k

/-- JS `Map.set`: replace in place if the key is present, else append. -/
def mapSet {α β : Type} [DecidableEq α] : List (α × β) → α → β → List (α × β)
  | [], k, v => [(k, v)]
  | (k', v') :: rest, k, v =>
    if k' = k then (k', v) :: rest else (k', v') :: mapSet rest k v

/-- JS `Map.delete`. -/
def mapDelete {α β : Type} [DecidableEq α] (m : List (α × β)) (k : α) :
    List (α × β) :=
  m.filter (fun p => !(decide (p.1 = k)))

/-- The keys of an association list, in order. -/
def keysOf {α β : Type} (m : List (α × β)) : List α := m.map Prod.fst

/-- A WebSocket connection id. -/
abbrev ConnId := Nat

/-- Per-socket transient state: `ws.isAlive`, `ws.clientType`, and whether
`ws.readyState === WebSocket.OPEN`. -/
structure ConnState where
  isAlive : Bool
  clientType : String
  isOpen : Bool
deriving DecidableEq, Repr

/-- All sockets the server has seen, with their transient state. -/
abbrev Conns := List (ConnId × ConnState)

/-- Whether `c.readyState === WebSocket.OPEN` (false for an unknown handle). -/
def connOpen (conns : Conns) (c : ConnId) : Bool :=
  match mapGet conns c with
  | some st => st.isOpen
  | none => false

/-- Update the state of socket `c` in place (no-op if absent). -/
def updateConn : Conns → ConnId → (ConnState → ConnState) → Conns
  | [], _, _ => []
  | p :: rest, c, f =>
    if p.1 = c then (p.1, f p.2) :: updateConn rest c f
    else p :: updateConn rest c f

/-- Model of `ws.terminate()`: the socket stops being open. -/
def terminate (conns : Conns) (c : ConnId) : Conns :=
  updateConn conns c (fun st => { st with isOpen := false })

/-- Terminate every socket in the list, in order. -/
def terminateAll (cs : List ConnId) (conns : Conns) : Conns :=
  cs.foldl (fun co c => terminate co c) conns

/-- Model of `ws.clientType = t`. -/
def setClientType (conns : Conns) (c : ConnId) (t : String) : Conns :=
  updateConn conns c (fun st => { st with clientType := t })

/-- Model of `ws.isAlive = b`. -/
def setAlive (conns : Conns) (c : ConnId) (b : Bool) : Conns :=
  updateConn conns c (fun st => { st with isAlive := b })

/-- The open sockets, in connection order (`wss.clients` restricted to
`readyState === OPEN`). -/
def openConns (conns : Conns) : List ConnId :=
  (conns.filter (fun p => p.2.isOpen)).map Prod.fst

/-- A Connection-Registry entry (value of the `clients` map):
`{ last, ssid }`. -/
structure ClientInfo where
  last : Nat
  ssid : JVal
deriving DecidableEq, Repr

/-- A DeviceSession (value of the first variant's `espBySsid` map):
`{ ws, userID, stats, last }`.  `last` is `none` where the source builds
the record without a `last` field (close/sweep reclamation). -/
structure EspInfo where
  ws : Option ConnId
  userID : JVal
  stats : String
  last : Option Nat
deriving DecidableEq, Repr

/-- A FrontendSession (value of the first variant's `frontendByUserId`
map): `{ ws, status, last }`, plus the `lastSeen` field the close and
ping-sweep paths add. -/
structure FrontInfo where
  ws : ConnId
  status : String
  last : Nat
  lastSeen : Option Nat
deriving DecidableEq, Repr

/-- The first variant's whole mutable state. -/
structure SState where
  conns : Conns
  clients : List (ConnId × ClientInfo)
  espBySsid : List (JVal × EspInfo)
  frontendByUserId : List (JVal × FrontInfo)
deriving DecidableEq, Repr

/-- An outbound message, by shape. -/
inductive OutMsg where
  | sayHello (ssids userID : JVal)
  | sayHelloV2 (ssid userID : JVal)
  | statusOnline (ssid : JVal)
  | statusOffline (ssid : JVal)
  | userOffline (userID : JVal)
  | deviceStatus (deviceName : JVal)
  | command (userID deviceName : JVal)
  | deviceConnection (deviceName : JVal) (message : String)
  | nfcEvent (uid : JVal)
  | ping
deriving DecidableEq, Repr

/-- The sends a handler performs, in order: (target socket, message). -/
abbrev Sends := List (ConnId × OutMsg)

/-- The fields of a parsed JSON object the handlers read; an absent field
is `undef`. -/
structure Msg where
  type : JVal
  ssid : JVal
  userID : JVal
  deviceName : JVal
  uid : JVal
deriving DecidableEq, Repr

/-- An inbound payload: not JSON at all, the JSON text `null` (property
access on it throws), or a value whose property reads behave like an
object's. -/
inductive Payload where
  | malformed
  | jnull
  | obj (m : Msg)
deriving DecidableEq, Repr

/-- Optional chaining `oldInfo?.userID`: `undefined` when the record is absent. -/
def oldUserIDOf : Option EspInfo → JVal
  | none => .undef
  | some e => e.userID

/-- The `reconnect` handler's effect on the Connection Registry and the
socket states (shared verbatim by both variants, src/server.js lines
60-68 and 520-528): evict and terminate every other socket bound to this
ssid, then bind the new socket. -/
def recCore (v : JVal) (c : ConnId) (now : Nat)
    (p : List (ConnId × ClientInfo) × Conns) :
    List (ConnId × ClientInfo) × Conns :=
  let victims := (p.1.filter (fun q => decide (q.2.ssid = v ∧ q.1 ≠ c))).map Prod.fst
  (mapSet (p.1.filter (fun q => !(decide (q.2.ssid = v ∧ q.1 ≠ c)))) c ⟨now, v⟩,
   terminateAll victims p.2)

/-- First variant `reconnect` handler (src/server.js lines 43-82). -/
def reconnect1 (s : SState) (c : ConnId) (now : Nat) (m : Msg) :
    SState × Sends :=
  let oldInfo := mapGet s.espBySsid m.ssid
  let esp1 := mapSet s.espBySsid m.ssid
    ⟨some c, jvalOr (jvalOr (oldUserIDOf oldInfo) m.userID) (.str ""), "online", some now⟩
  let cc := recCore m.ssid c now (s.clients, s.conns)
  let sends : Sends :=
    match mapGet esp1 m.ssid with
    | some e =>
      match e.ws with
      | some w =>
        if connOpen cc.2 w then [(w, OutMsg.sayHello m.ssid e.userID)] else []
      | none => []
    | none => []
  ({ s with espBySsid := esp1, clients := cc.1, conns := cc.2 }, sends)

/-- First variant `heartbeat` handler (src/server.js lines 84-112). -/
def heartbeat1 (s : SState) (c : ConnId) (now : Nat) (m : Msg) :
    SState × Sends :=
  let conns1 := setClientType s.conns c "esp"
  let clients1 := mapSet s.clients c ⟨now, m.ssid⟩
  let oldInfo := mapGet s.espBySsid m.ssid
  let esp1 := mapSet s.espBySsid m.ssid
    ⟨some c, jvalOr (oldUserIDOf oldInfo) .null, "online", some now⟩
  let sends : Sends :=
    ((conns1.filter (fun p => decide (p.1 ≠ c) && p.2.isOpen)).map Prod.fst).map
      (fun c2 => (c2, OutMsg.statusOnline m.ssid))
  ({ s with conns := conns1, clients := clients1, espBySsid := esp1 }, sends)

/-- First variant `accStatus` handler (src/server.js lines 114-129). -/
def accStatus1 (s : SState) (c : ConnId) (now : Nat) (m : Msg) :
    SState × Sends :=
  let conns1 := setClientType s.conns c "frontend"
  let fr1 := mapSet s.frontendByUserId m.userID ⟨c, "online", now, none⟩
  ({ s with conns := conns1, frontendByUserId := fr1 }, [])

/-- First variant `logout` handler (src/server.js lines 131-141): spreads
the old record, so `ws` and `lastSeen` are kept. -/
def logout1 (s : SState) (now : Nat) (m : Msg) : SState × Sends :=
  match mapGet s.frontendByUserId m.userID with
  | some u =>
    ({ s with frontendByUserId :=
        mapSet s.frontendByUserId m.userID { u with status := "offline", last := now } }, [])
  | none => (s, [])

/-- The link branch of `deviceSelected` (identical at src/server.js lines
169-201 and 205-244): if the device record exists with an open socket,
overwrite its `userID` and send the link confirmation to the device socket
and to the requester's frontend socket (each leg only when open). -/
def linkDevice1 (s : SState) (m : Msg) (espInfo : Option EspInfo) :
    SState × Sends :=
  match espInfo with
  | some e =>
    match e.ws with
    | some w =>
      if connOpen s.conns w then
        let e1 := { e with userID := m.userID }
        let esp1 := mapSet s.espBySsid m.deviceName e1
        let espSends : Sends :=
          if connOpen s.conns w then [(w, OutMsg.command m.userID m.deviceName)] else []
        let frontSends : Sends :=
          match mapGet s.frontendByUserId m.userID with
          | some a =>
            if connOpen s.conns a.ws then [(a.ws, OutMsg.command m.userID m.deviceName)] else []
          | none => []
        ({ s with espBySsid := esp1 }, espSends ++ frontSends)
      else (s, [])
    | none => (s, [])
  | none => (s, [])

/-- First variant `deviceSelected` handler (src/server.js lines 143-250).
When the device has a truthy stored `userID` whose frontend record is
absent, `accInfo.status` dereferences `undefined` and throws (`none`). -/
def deviceSelected1 (s : SState) (m : Msg) : Option (SState × Sends) :=
  let espInfo := mapGet s.espBySsid m.deviceName
  match espInfo with
  | some e =>
    if e.userID.truthy then
      match mapGet s.frontendByUserId e.userID with
      | none => none
      | some a =>
        if a.status = "online" then
          let sends : Sends :=
            match mapGet s.frontendByUserId m.userID with
            | some f =>
              if connOpen s.conns f.ws then [(f.ws, OutMsg.deviceStatus m.deviceName)] else []
            | none => []
          some (s, sends)
        else some (linkDevice1 s m espInfo)
    else some (linkDevice1 s m espInfo)
  | none => some (linkDevice1 s m none)

/-- Lookup `findSsidByUserId` (src/server.js lines 423-430): first device record,
in insertion order, whose stored `userID` strictly equals the argument. -/
def findSsidByUserId (userId : JVal) :
    List (JVal × EspInfo) → Option (JVal × EspInfo)
  | [] => none
  | (ssid, info) :: rest =>
    if info.userID = userId then some (ssid, info)
    else findSsidByUserId userId rest

/-- First variant `connection` (queryConnection) handler (src/server.js
lines 252-290). -/
def connection1 (s : SState) (m : Msg) : SState × Sends :=
  let device := findSsidByUserId m.userID s.espBySsid
  let msg : OutMsg :=
    match device with
    | some (ssid, info) =>
      .deviceConnection ssid (if info.stats = "online" then "Connected" else "Not connected")
    | none => .deviceConnection (.str "") "Not connected"
  let sends : Sends :=
    match mapGet s.frontendByUserId m.userID with
    | some f => if connOpen s.conns f.ws then [(f.ws, msg)] else []
    | none => []
  (s, sends)

/-- First variant `nfc` handler (src/server.js lines 292-306). -/
def nfc1 (s : SState) (m : Msg) : SState × Sends :=
  let sends : Sends :=
    match mapGet s.frontendByUserId m.userID with
    | some f => if connOpen s.conns f.ws then [(f.ws, OutMsg.nfcEvent m.uid)] else []
    | none => []
  (s, sends)

/-- First variant message router (src/server.js lines 37-308).  The empty
`catch` leaves `data` undefined on parse failure, and the JSON text `null`
parses to `null`; `data.type` then throws in both cases (`none`). -/
def routeMessage1 (s : SState) (c : ConnId) (now : Nat) (p : Payload) :
    Option (SState × Sends) :=
  match p with
  | .malformed => none
  | .jnull => none
  | .obj m =>
    if m.type = .str "reconnect" then some (reconnect1 s c now m)
    else if m.type = .str "heartbeat" then some (heartbeat1 s c now m)
    else if m.type = .str "accStatus" then
      if m.userID.truthy then some (accStatus1 s c now m) else some (s, [])
    else if m.type = .str "logout" then
      if m.userID.truthy then some (logout1 s now m) else some (s, [])
    else if m.type = .str "deviceSelected" then deviceSelected1 s m
    else if m.type = .str "connection" then some (connection1 s m)
    else if m.type = .str "nfc" then some (nfc1 s m)
    else some (s, [])

/-- The frontend part of the close reconciliation (src/server.js lines
313-336): the first record bound to this socket is marked offline and
`lastSeen`-stamped (the loop breaks after the first hit). -/
def markFirstFrontendOffline (c : ConnId) (now : Nat) :
    List (JVal × FrontInfo) → List (JVal × FrontInfo)
  | [] => []
  | (k, f) :: rest =>
    if f.ws = c then (k, { f with status := "offline", lastSeen := some now }) :: rest
    else (k, f) :: markFirstFrontendOffline c now rest

/-- The Device-Directory part of the close reconciliation (src/server.js
lines 338-349): if the closing socket's registry entry names a truthy
ssid whose record exists, clear that record's socket, keeping a truthy
`userID` (`espInfo.userID || ""`). -/
def close1Esp (s : SState) (c : ConnId) : List (JVal × EspInfo) :=
  match mapGet s.clients c with
  | some info =>
    if info.ssid.truthy then
      match mapGet s.espBySsid info.ssid with
      | some e =>
        mapSet s.espBySsid info.ssid ⟨none, jvalOr e.userID (.str ""), "offline", none⟩
      | none => s.espBySsid
    else s.espBySsid
  | none => s.espBySsid

/-- First variant `ws.on("close")` reconciliation (src/server.js lines
310-351): mark the first frontend record of this socket offline, clear
the device record its registry entry names, and evict it from the
registry.  (The frontend marking touches neither `clients` nor
`espBySsid`, so the two later phases read the original maps.) -/
def close1 (s : SState) (c : ConnId) (now : Nat) : SState :=
  { s with
      frontendByUserId := markFirstFrontendOffline c now s.frontendByUserId,
      espBySsid := close1Esp s c,
      clients := mapDelete s.clients c }

/-- One registry entry's treatment by the device sweep (src/server.js
lines 356-386): an entry stale beyond 15000 is broadcast offline, its
socket terminated and evicted, and its ssid's DeviceSession cleared. -/
def deviceSweepStep (now : Nat) (acc : SState × Sends)
    (entry : ConnId × ClientInfo) : SState × Sends :=
  let s := acc.1
  if 15000 < now - entry.2.last then
    let bmsgs : Sends :=
      (openConns s.conns).map (fun c2 => (c2, OutMsg.statusOffline entry.2.ssid))
    let conns1 := terminate s.conns entry.1
    let clients1 := mapDelete s.clients entry.1
    let esp1 :=
      match mapGet s.espBySsid entry.2.ssid with
      | some e =>
        mapSet s.espBySsid entry.2.ssid ⟨none, jvalOr e.userID (.str ""), "offline", none⟩
      | none => s.espBySsid
    ({ s with conns := conns1, clients := clients1, espBySsid := esp1 }, acc.2 ++ bmsgs)
  else acc

/-- First variant device sweep (src/server.js lines 354-387, scheduled
every 5000): scan the Connection Registry in order. -/
def deviceSweep1 (s : SState) (now : Nat) : SState × Sends :=
  s.clients.foldl (deviceSweepStep now) (s, [])

/-- One socket's treatment by the ping sweep (src/server.js lines
390-420): only `clientType === "frontend"` sockets are inspected; a dead
one has every online frontend record bound to it marked offline (each with
a broadcast) and is terminated; a live one is marked not-alive and pinged. -/
def pingSweepConn (now : Nat) (acc : SState × Sends) (c : ConnId) :
    SState × Sends :=
  let s := acc.1
  match mapGet s.conns c with
  | none => acc
  | some st =>
    if st.clientType ≠ "frontend" then acc
    else if !st.isAlive then
      let offlineKeys :=
        (s.frontendByUserId.filter
          (fun p => decide (p.2.ws = c ∧ p.2.status = "online"))).map Prod.fst
      let fr1 := s.frontendByUserId.map (fun p =>
        if p.2.ws = c ∧ p.2.status = "online" then
          (p.1, { p.2 with status := "offline", lastSeen := some now })
        else p)
      let bmsgs : Sends :=
        offlineKeys.foldr
          (fun k acc2 => (openConns s.conns).map (fun c2 => (c2, OutMsg.userOffline k)) ++ acc2) []
      ({ s with frontendByUserId := fr1, conns := terminate s.conns c }, acc.2 ++ bmsgs)
    else
      ({ s with conns := setAlive s.conns c false }, acc.2 ++ [(c, OutMsg.ping)])

/-- First variant ping sweep (src/server.js lines 389-421, scheduled
every 15000): iterate the open sockets. -/
def pingSweep1 (s : SState) (now : Nat) : SState × Sends :=
  (openConns s.conns).foldl (pingSweepConn now) (s, [])

/-- An externally observable event of the first variant: a new socket, an
inbound message, a socket close, a pong, or a timer firing. -/
inductive Event where
  | connect (c : ConnId)
  | msg (c : ConnId) (now : Nat) (p : Payload)
  | close (c : ConnId) (now : Nat)
  | pong (c : ConnId)
  | devSweep (now : Nat)
  | pingSweep (now : Nat)
deriving DecidableEq, Repr

/-- One event step of the first variant; `none` means the process raised
an uncaught exception. -/
def step1 (s : SState) (e : Event) : Option (SState × Sends) :=
  match e with
  | .connect c =>
    some ({ s with conns := mapSet s.conns c ⟨true, "unknown", true⟩ }, [])
  | .msg c now p => routeMessage1 s c now p
  | .close c now => some (close1 { s with conns := terminate s.conns c } c now, [])
  | .pong c => some ({ s with conns := setAlive s.conns c true }, [])
  | .devSweep now => some (deviceSweep1 s now)
  | .pingSweep now => some (pingSweep1 s now)

/-- Run a sequence of events; `none` as soon as a step raises. -/
def runEvents1 (s : SState) : List Event → Option SState
  | [] => some s
  | e :: rest =>
    match step1 s e with
    | none => none
    | some (s', _) => runEvents1 s' rest

/-- A DeviceSession of the second variant (`{ ws, userID, status, last }`,
field named `status` there). -/
structure Esp2Info where
  ws : Option ConnId
  userID : JVal
  status : String
  last : Option Nat
deriving DecidableEq, Repr

/-- A FrontendSession of the second variant: `accStatus` stores `{ ws }`
only. -/
structure Front2Info where
  ws : ConnId
deriving DecidableEq, Repr

/-- The second variant's whole mutable state. -/
structure S2State where
  conns : Conns
  clients : List (ConnId × ClientInfo)
  espBySsid : List (JVal × Esp2Info)
  frontendByUserId : List (JVal × Front2Info)
deriving DecidableEq, Repr

/-- Optional chaining `oldInfo?.userID` for the second variant's records. -/
def oldUserIDOf2 : Option Esp2Info → JVal
  | none => .undef
  | some e => e.userID

/-- Second variant `reconnect` handler (src/server.js lines 508-542). -/
def reconnect2 (s : S2State) (c : ConnId) (now : Nat) (m : Msg) :
    S2State × Sends :=
  let oldInfo := mapGet s.espBySsid m.ssid
  let esp1 := mapSet s.espBySsid m.ssid
    ⟨some c, jvalOr (jvalOr (oldUserIDOf2 oldInfo) m.userID) (.str ""), "online", some now⟩
  let cc := recCore m.ssid c now (s.clients, s.conns)
  let sends : Sends :=
    match mapGet esp1 m.ssid with
    | some e =>
      match e.ws with
      | some w =>
        if connOpen cc.2 w then [(w, OutMsg.sayHelloV2 m.ssid e.userID)] else []
      | none => []
    | none => []
  ({ s with espBySsid := esp1, clients := cc.1, conns := cc.2 }, sends)

/-- Second variant `heartbeat` handler (src/server.js lines 545-569). -/
def heartbeat2 (s : S2State) (c : ConnId) (now : Nat) (m : Msg) :
    S2State × Sends :=
  let conns1 := setClientType s.conns c "esp"
  let clients1 := mapSet s.clients c ⟨now, m.ssid⟩
  let oldInfo := mapGet s.espBySsid m.ssid
  let esp1 := mapSet s.espBySsid m.ssid
    ⟨some c, jvalOr (oldUserIDOf2 oldInfo) .null, "online", some now⟩
  let sends : Sends :=
    ((conns1.filter (fun p => decide (p.1 ≠ c) && p.2.isOpen)).map Prod.fst).map
      (fun c2 => (c2, OutMsg.statusOnline m.ssid))
  ({ s with conns := conns1, clients := clients1, espBySsid := esp1 }, sends)

/-- Second variant `nfc` handler (src/server.js lines 572-581). -/
def nfc2 (s : S2State) (m : Msg) : S2State × Sends :=
  let sends : Sends :=
    match mapGet s.frontendByUserId m.userID with
    | some f => if connOpen s.conns f.ws then [(f.ws, OutMsg.nfcEvent m.uid)] else []
    | none => []
  (s, sends)

/-- Second variant `accStatus` handler (src/server.js lines 584-588). -/
def accStatus2 (s : S2State) (c : ConnId) (m : Msg) : S2State × Sends :=
  ({ s with
      frontendByUserId := mapSet s.frontendByUserId m.userID (Front2Info.mk c),
      conns := setClientType s.conns c "frontend" }, [])

/-- Second variant message router (src/server.js lines 499-589): parse
failure returns early, but the JSON text `null` still reaches `data.type`
and throws. -/
def routeMessage2 (s : S2State) (c : ConnId) (now : Nat) (p : Payload) :
    Option (S2State × Sends) :=
  match p with
  | .malformed => some (s, [])
  | .jnull => none
  | .obj m =>
    if m.type = .str "reconnect" then some (reconnect2 s c now m)
    else if m.type = .str "heartbeat" then some (heartbeat2 s c now m)
    else if m.type = .str "nfc" then some (nfc2 s m)
    else if m.type = .str "accStatus" then some (accStatus2 s c m)
    else some (s, [])

/-- Run a sequence of inbound messages through the second variant. -/
def runMsgs2 (s : S2State) : List (ConnId × Nat × Payload) → Option S2State
  | [] => some s
  | (c, now, p) :: rest =>
    match routeMessage2 s c now p with
    | none => none
    | some (s', _) => runMsgs2 s' rest

/-- A `reconnect` message naming device `v`, claiming owner `u`. -/
def mkReconnect (v u : JVal) : Msg := ⟨.str "reconnect", v, u, .undef, .undef⟩

/-- A `heartbeat` message naming device `v`. -/
def mkHeartbeat (v : JVal) : Msg := ⟨.str "heartbeat", v, .undef, .undef, .undef⟩

/-- A `deviceSelected` message naming device `dn` from user `u`. -/
def mkDeviceSelected (dn u : JVal) : Msg := ⟨.str "deviceSelected", .undef, u, dn, .undef⟩

/-- A `connection` (queryConnection) message from user `u`. -/
def mkConnectionMsg (u : JVal) : Msg := ⟨.str "connection", .undef, u, .undef, .undef⟩

/-- A `logout` message for user `u`. -/
def mkLogout (u : JVal) : Msg := ⟨.str "logout", .undef, u, .undef, .undef⟩

/-- An `accStatus` message for user `u`. -/
def mkAccStatus (u : JVal) : Msg := ⟨.str "accStatus", .undef, u, .undef, .undef⟩

/-- The spec's DeviceSession invariant (§3): if a session's `connection`
is non-null, that socket is open and the registry binds it to this
session's key.  (Key uniqueness is stated separately by `stateWF`.) -/
def sessionConnInv (s : SState) : Bool :=
  s.espBySsid.all (fun q =>
    match q.2.ws with
    | none => true
    | some w =>
      connOpen s.conns w &&
      (match mapGet s.clients w with
       | some ci => decide (ci.ssid = q.1)
       | none => false))

/-- Key uniqueness of the three directories: at most one record per
socket, per device identifier and per user identifier. -/
def stateWF (s : SState) : Prop :=
  (keysOf s.clients).Nodup ∧ (keysOf s.espBySsid).Nodup ∧
    (keysOf s.frontendByUserId).Nodup

/-- Whether an event is a `deviceSelected` message. -/
def eventIsDeviceSelected : Event → Bool
  | .msg _ _ (.obj m) => decide (m.type = .str "deviceSelected")
  | _ => false

/-! ### Association-list lemmas -/

theorem mapGet_set_self {α β : Type} [DecidableEq α] (m : List (α × β)) (k : α) (v : β) :
    mapGet (mapSet m k v) k = some v := by
  induction m with
  | nil => simp [mapSet, mapGet]
  | cons p rest ih =>
    by_cases h : p.1 = k
    · simp [mapSet, mapGet, h]
    · simp [mapSet, mapGet, h, ih]

theorem mapGet_set_ne {α β : Type} [DecidableEq α] (m : List (α × β)) (k k' : α) (v : β)
    (h : k' ≠ k) : mapGet (mapSet m k v) k' = mapGet m k' := by
  induction m with
  | nil =>
    have hk : ¬(k = k') := fun hh => h hh.symm
    simp [mapSet, mapGet, hk]
  | cons p rest ih =>
    have hk : ¬(k = k') := fun hh => h hh.symm
    by_cases hp : p.1 = k
    · have hp' : p.1 ≠ k' := fun hh => h (hh ▸ hp)
      simp [mapSet, hp, mapGet, hp', hk]
    · by_cases hq : p.1 = k'
      · simp [mapSet, hp, mapGet, hq, h]
      · simp [mapSet, hp, mapGet, hq, ih]

theorem mapGet_mem {α β : Type} [DecidableEq α] {m : List (α × β)} {k : α} {v : β}
    (h : mapGet m k = some v) : (k, v) ∈ m := by
  induction m with
  | nil => simp [mapGet] at h
  | cons p rest ih =>
    obtain ⟨a, b⟩ := p
    by_cases hp : a = k
    · simp only [mapGet, if_pos hp] at h
      cases h
      subst hp
      exact List.mem_cons_self _ _
    · simp only [mapGet, if_neg hp] at h
      exact List.mem_cons_of_mem _ (ih h)

theorem mem_mapGet {α β : Type} [DecidableEq α] {m : List (α × β)} {k : α} {v : β}
    (hw : (keysOf m).Nodup) (h : (k, v) ∈ m) : mapGet m k = some v := by
  induction m with
  | nil => simp at h
  | cons p rest ih =>
    simp only [keysOf, List.map_cons, List.nodup_cons] at hw
    rcases List.mem_cons.mp h with h1 | h1
    · subst h1; simp [mapGet]
    · have hk : p.1 ≠ k := by
        intro hk
        exact hw.1 (hk ▸ (List.mem_map.mpr ⟨(k, v), h1, rfl⟩))
      simp only [mapGet, if_neg hk]
      exact ih hw.2 h1

theorem mapGet_eq_none_iff {α β : Type} [DecidableEq α] (m : List (α × β)) (k : α) :
    mapGet m k = none ↔ ∀ p ∈ m, p.1 ≠ k := by
  induction m with
  | nil => simp [mapGet]
  | cons p rest ih =>
    by_cases hp : p.1 = k
    · simp [mapGet, hp]
    · simp [mapGet, hp, ih]

theorem mapGet_filter_some {α β : Type} [DecidableEq α] {m : List (α × β)}
    {f : α × β → Bool} {k : α} {v : β} (hw : (keysOf m).Nodup)
    (h : mapGet (m.filter f) k = some v) :
    mapGet m k = some v ∧ f (k, v) = true := by
  have hmem := mapGet_mem h
  have hmem' := List.mem_filter.mp hmem
  exact ⟨mem_mapGet hw hmem'.1, hmem'.2⟩

theorem keysOf_filter_sublist {α β : Type} (m : List (α × β)) (f : α × β → Bool) :
    (keysOf (m.filter f)).Sublist (keysOf m) :=
  (List.filter_sublist m).map Prod.fst

theorem nodup_keys_filter {α β : Type} {m : List (α × β)} (f : α × β → Bool)
    (hw : (keysOf m).Nodup) : (keysOf (m.filter f)).Nodup :=
  (keysOf_filter_sublist m f).nodup hw

theorem keysOf_mapSet_subset {α β : Type} [DecidableEq α] (m : List (α × β)) (k : α)
    (v : β) : ∀ x ∈ keysOf (mapSet m k v), x = k ∨ x ∈ keysOf m := by
  induction m with
  | nil =>
    intro x hx
    simp only [mapSet, keysOf, List.map_cons, List.map_nil, List.mem_singleton] at hx
    exact Or.inl hx
  | cons p rest ih =>
    intro x hx
    by_cases hp : p.1 = k
    · simp only [mapSet, if_pos hp, keysOf, List.map_cons, List.mem_cons] at hx
      rcases hx with h1 | h1
      · exact Or.inr (by simp [keysOf, h1])
      · exact Or.inr (by simp only [keysOf, List.map_cons, List.mem_cons]; exact Or.inr h1)
    · simp only [mapSet, if_neg hp, keysOf, List.map_cons, List.mem_cons] at hx
      rcases hx with h1 | h1
      · exact Or.inr (by simp [keysOf, h1])
      · rcases ih x h1 with h2 | h2
        · exact Or.inl h2
        · exact Or.inr (by simp only [keysOf, List.map_cons, List.mem_cons]; exact Or.inr h2)

theorem nodup_keys_mapSet {α β : Type} [DecidableEq α] {m : List (α × β)} (k : α) (v : β)
    (hw : (keysOf m).Nodup) : (keysOf (mapSet m k v)).Nodup := by
  induction m with
  | nil => simp [mapSet, keysOf]
  | cons p rest ih =>
    simp only [keysOf, List.map_cons, List.nodup_cons] at hw
    by_cases hp : p.1 = k
    · simpa [mapSet, hp, keysOf, List.nodup_cons] using hw
    · simp only [mapSet, if_neg hp, keysOf, List.map_cons, List.nodup_cons]
      refine ⟨?_, ih hw.2⟩
      intro hmem
      rcases keysOf_mapSet_subset rest k v p.1 hmem with h1 | h1
      · exact hp h1
      · exact hw.1 h1

theorem nodup_keys_mapDelete {α β : Type} [DecidableEq α] {m : List (α × β)} (k : α)
    (hw : (keysOf m).Nodup) : (keysOf (mapDelete m k)).Nodup :=
  nodup_keys_filter _ hw

theorem mapGet_mapDelete_ne {α β : Type} [DecidableEq α] (m : List (α × β)) (k k' : α)
    (h : k' ≠ k) : mapGet (mapDelete m k) k' = mapGet m k' := by
  induction m with
  | nil => rfl
  | cons p rest ih =>
    obtain ⟨a, b⟩ := p
    by_cases hp : a = k
    · have h1 : mapDelete ((a, b) :: rest) k = mapDelete rest k := by
        simp [mapDelete, List.filter, hp]
      have ha : ¬(a = k') := fun hh => h (hh ▸ hp)
      rw [h1, ih]
      simp [mapGet, ha]
    · have h1 : mapDelete ((a, b) :: rest) k = (a, b) :: mapDelete rest k := by
        simp [mapDelete, List.filter, hp]
      rw [h1]
      by_cases hq : a = k'
      · simp [mapGet, hq]
      · simp [mapGet, hq, ih]

theorem mapGet_mapDelete_self {α β : Type} [DecidableEq α] (m : List (α × β)) (k : α) :
    mapGet (mapDelete m k) k = none := by
  rw [mapGet_eq_none_iff]
  intro p hp
  exact of_decide_eq_true (by simpa using (List.mem_filter.mp hp).2)

/-! ### Socket-state lemmas -/

theorem mapGet_updateConn (conns : Conns) (c x : ConnId) (f : ConnState → ConnState) :
    mapGet (updateConn conns c f) x =
      if x = c then (mapGet conns x).map f else mapGet conns x := by
  induction conns with
  | nil => by_cases hx : x = c <;> simp [updateConn, mapGet, hx]
  | cons p rest ih =>
    obtain ⟨a, st⟩ := p
    by_cases hp : a = c
    · subst hp
      by_cases hx : a = x
      · subst hx
        simp [updateConn, mapGet]
      · have hx' : ¬(x = a) := fun hh => hx hh.symm
        simp [updateConn, mapGet, hx, hx', ih]
    · by_cases hx : a = x
      · subst hx
        have hxc : ¬(a = c) := hp
        simp [updateConn, mapGet, hp, hxc]
      · have hx' : ¬(x = a) := fun hh => hx hh.symm
        simp [updateConn, mapGet, hp, hx, ih]

theorem connOpen_terminate (conns : Conns) (c x : ConnId) :
    connOpen (terminate conns c) x = if x = c then false else connOpen conns x := by
  unfold connOpen terminate
  rw [mapGet_updateConn]
  by_cases h : x = c
  · simp only [h, if_pos trivial]
    cases mapGet conns c <;> simp
  · simp [h]

theorem connOpen_terminate_false {conns : Conns} {x : ConnId} (c : ConnId)
    (h : connOpen conns x = false) : connOpen (terminate conns c) x = false := by
  rw [connOpen_terminate]
  by_cases hx : x = c <;> simp [hx, h]

theorem connOpen_terminateAll_false {x : ConnId} (cs : List ConnId) :
    ∀ {conns : Conns}, connOpen conns x = false →
      connOpen (terminateAll cs conns) x = false := by
  induction cs with
  | nil => intro conns h; exact h
  | cons c rest ih =>
    intro conns h
    exact ih (connOpen_terminate_false c h)

theorem connOpen_terminateAll_mem {x : ConnId} {cs : List ConnId} (hx : x ∈ cs) :
    ∀ (conns : Conns), connOpen (terminateAll cs conns) x = false := by
  induction cs with
  | nil => simp at hx
  | cons c rest ih =>
    intro conns
    rcases List.mem_cons.mp hx with h1 | h1
    · subst h1
      by_cases hr : x ∈ rest
      · exact ih hr _
      · refine connOpen_terminateAll_false rest ?_
        rw [connOpen_terminate]
        simp
    · exact ih h1 _

theorem connOpen_setClientType (conns : Conns) (c x : ConnId) (t : String) :
    connOpen (setClientType conns c t) x = connOpen conns x := by
  unfold connOpen setClientType
  rw [mapGet_updateConn]
  by_cases h : x = c
  · subst h; cases mapGet conns x <;> simp
  · simp [h]

theorem mem_openConns {conns : Conns} {c : ConnId} (h : connOpen conns c = true) :
    c ∈ openConns conns := by
  unfold connOpen at h
  cases hg : mapGet conns c with
  | none => rw [hg] at h; simp at h
  | some st =>
    rw [hg] at h
    exact List.mem_map.mpr ⟨(c, st), List.mem_filter.mpr ⟨mapGet_mem hg, h⟩, rfl⟩

/-! ### Reconnect-sequence machinery (claim C1) -/

/-- Run a sequence of first-variant `reconnect` messages for device `v`,
one per (socket, claimed owner) pair, keeping only the state. -/
def foldRec1 (now : Nat) (v : JVal) : SState → List (ConnId × JVal) → SState
  | s, [] => s
  | s, (c, u) :: rest => foldRec1 now v (reconnect1 s c now (mkReconnect v u)).1 rest

/-- Run a sequence of second-variant `reconnect` messages for device `v`. -/
def foldRec2 (now : Nat) (v : JVal) : S2State → List (ConnId × JVal) → S2State
  | s, [] => s
  | s, (c, u) :: rest => foldRec2 now v (reconnect2 s c now (mkReconnect v u)).1 rest

/-- The registry/socket part of a `reconnect` sequence, shared by both
variants. -/
def foldRecCore (now : Nat) (v : JVal) :
    List (ConnId × ClientInfo) × Conns → List (ConnId × JVal) →
      List (ConnId × ClientInfo) × Conns
  | p, [] => p
  | p, (c, _) :: rest => foldRecCore now v (recCore v c now p) rest

/-- The socket of the last element of a reconnect sequence (`c` for the
empty tail). -/
def lastKey (c : ConnId) : List (ConnId × JVal) → ConnId
  | [] => c
  | (c', _) :: rest => lastKey c' rest

/-- Invariant carried along a reconnect sequence: registry keys stay
unique, only the latest socket `l` is bound to `v`, it is bound, and
every processed socket other than `l` has been terminated. -/
def RecInv (v : JVal) (ps : List (ConnId × JVal)) (l : ConnId)
    (p : List (ConnId × ClientInfo) × Conns) : Prop :=
  (keysOf p.1).Nodup ∧
  (∀ c' i', mapGet p.1 c' = some i' → i'.ssid = v → c' = l) ∧
  (∃ i, mapGet p.1 l = some i ∧ i.ssid = v) ∧
  (∀ q ∈ ps, q.1 ≠ l → connOpen p.2 q.1 = false)

theorem recCore_closes {v : JVal} {p : List (ConnId × ClientInfo) × Conns}
    {x : ConnId} {i : ClientInfo} (c : ConnId) (now : Nat)
    (hx : mapGet p.1 x = some i) (hs : i.ssid = v) (hne : x ≠ c) :
    connOpen (recCore v c now p).2 x = false := by
  have hmem : (x, i) ∈ p.1 := mapGet_mem hx
  have hvict : x ∈ (p.1.filter (fun q => decide (q.2.ssid = v ∧ q.1 ≠ c))).map Prod.fst :=
    List.mem_map.mpr ⟨(x, i), List.mem_filter.mpr ⟨hmem, by simp [hs, hne]⟩, rfl⟩
  exact connOpen_terminateAll_mem hvict p.2

theorem recCore_closed_mono {v : JVal} {p : List (ConnId × ClientInfo) × Conns}
    {x : ConnId} (c : ConnId) (now : Nat) (h : connOpen p.2 x = false) :
    connOpen (recCore v c now p).2 x = false :=
  connOpen_terminateAll_false _ h

theorem recCore_bound (v : JVal) (c : ConnId) (now : Nat)
    (p : List (ConnId × ClientInfo) × Conns) (hw : (keysOf p.1).Nodup) :
    (keysOf (recCore v c now p).1).Nodup ∧
    (∀ c' i', mapGet (recCore v c now p).1 c' = some i' → i'.ssid = v → c' = c) ∧
    (∃ i, mapGet (recCore v c now p).1 c = some i ∧ i.ssid = v) := by
  refine ⟨nodup_keys_mapSet _ _ (nodup_keys_filter _ hw), ?_, ?_⟩
  · intro c' i' hget hs
    by_cases hc : c' = c
    · exact hc
    · simp only [recCore] at hget
      rw [mapGet_set_ne _ _ _ _ hc] at hget
      have := mapGet_filter_some hw hget
      have hpred := this.2
      simp only [Bool.not_eq_true', decide_eq_false_iff_not] at hpred
      exact absurd ⟨hs, hc⟩ hpred
  · exact ⟨⟨now, v⟩, mapGet_set_self _ _ _, rfl⟩

theorem recInv_step {v : JVal} {ps : List (ConnId × JVal)} {l : ConnId}
    {p : List (ConnId × ClientInfo) × Conns} (c : ConnId) (u : JVal) (now : Nat)
    (h : RecInv v ps l p) : RecInv v (ps ++ [(c, u)]) c (recCore v c now p) := by
  obtain ⟨hw, _, hB, hC⟩ := h
  obtain ⟨hw', hA', hB'⟩ := recCore_bound v c now p hw
  refine ⟨hw', hA', hB', ?_⟩
  intro q hq hne
  rcases List.mem_append.mp hq with h1 | h1
  · by_cases hl : q.1 = l
    · obtain ⟨i, hgi, hsi⟩ := hB
      exact recCore_closes c now (hl ▸ hgi) hsi hne
    · exact recCore_closed_mono c now (hC q h1 hl)
  · simp only [List.mem_singleton] at h1
    exact absurd (by rw [h1]) hne

theorem recInv_base {v : JVal} {p : List (ConnId × ClientInfo) × Conns}
    (c : ConnId) (u : JVal) (now : Nat) (hw : (keysOf p.1).Nodup) :
    RecInv v [(c, u)] c (recCore v c now p) := by
  obtain ⟨hw', hA', hB'⟩ := recCore_bound v c now p hw
  refine ⟨hw', hA', hB', ?_⟩
  intro q hq hne
  simp only [List.mem_singleton] at hq
  exact absurd (by rw [hq]) hne

theorem foldRecCore_run (now : Nat) (v : JVal) :
    ∀ (l : List (ConnId × JVal)) (p : List (ConnId × ClientInfo) × Conns)
      (ps : List (ConnId × JVal)) (c : ConnId), RecInv v ps c p →
      RecInv v (ps ++ l) (lastKey c l) (foldRecCore now v p l)
  | [], p, ps, c, h => by simpa [foldRecCore, lastKey] using h
  | (c', u') :: l, p, ps, c, h => by
    have h1 := recInv_step (p := p) c' u' now h
    have h2 := foldRecCore_run now v l (recCore v c' now p) (ps ++ [(c', u')]) c' h1
    simpa [foldRecCore, lastKey, List.append_assoc] using h2

theorem foldRecCore_closed_mono (now : Nat) (v : JVal) :
    ∀ (l : List (ConnId × JVal)) (p : List (ConnId × ClientInfo) × Conns)
      (x : ConnId), connOpen p.2 x = false →
      connOpen (foldRecCore now v p l).2 x = false
  | [], _, _, h => h
  | (c', _) :: l, p, x, h =>
    foldRecCore_closed_mono now v l (recCore v c' now p) x (recCore_closed_mono c' now h)

theorem foldRec1_core (now : Nat) (v : JVal) :
    ∀ (l : List (ConnId × JVal)) (s : SState),
      ((foldRec1 now v s l).clients, (foldRec1 now v s l).conns) =
        foldRecCore now v (s.clients, s.conns) l
  | [], s => rfl
  | (c, u) :: l, s => by
    have := foldRec1_core now v l (reconnect1 s c now (mkReconnect v u)).1
    simpa [foldRec1, foldRecCore] using this

theorem foldRec2_core (now : Nat) (v : JVal) :
    ∀ (l : List (ConnId × JVal)) (s : S2State),
      ((foldRec2 now v s l).clients, (foldRec2 now v s l).conns) =
        foldRecCore now v (s.clients, s.conns) l
  | [], s => rfl
  | (c, u) :: l, s => by
    have := foldRec2_core now v l (reconnect2 s c now (mkReconnect v u)).1
    simpa [foldRec2, foldRecCore] using this

theorem runEvents1_recon (now : Nat) (v : JVal) :
    ∀ (l : List (ConnId × JVal)) (s : SState),
      runEvents1 s (l.map (fun q => Event.msg q.1 now (Payload.obj (mkReconnect v q.2)))) =
        some (foldRec1 now v s l)
  | [], s => rfl
  | (c, u) :: l, s => by
    have := runEvents1_recon now v l (reconnect1 s c now (mkReconnect v u)).1
    simpa [runEvents1, step1, routeMessage1, mkReconnect, foldRec1] using this

theorem runMsgs2_recon (now : Nat) (v : JVal) :
    ∀ (l : List (ConnId × JVal)) (s : S2State),
      runMsgs2 s (l.map (fun q => (q.1, now, Payload.obj (mkReconnect v q.2)))) =
        some (foldRec2 now v s l)
  | [], s => rfl
  | (c, u) :: l, s => by
    have := runMsgs2_recon now v l (reconnect2 s c now (mkReconnect v u)).1
    simpa [runMsgs2, routeMessage2, mkReconnect, foldRec2] using this

/-! ### A generic fold invariant -/

theorem foldl_inv {α β : Type} (P : α → Prop) (f : α → β → α) :
    ∀ (l : List β) (a : α), P a → (∀ a' b, b ∈ l → P a' → P (f a' b)) →
      P (l.foldl f a)
  | [], a, ha, _ => ha
  | b :: l, a, ha, hstep =>
    foldl_inv P f l (f a b) (hstep a b (List.mem_cons_self _ _) ha)
      (fun a' b' hb' => hstep a' b' (List.mem_cons_of_mem _ hb'))

/-! ### Claim C1 -/

/-- C1: for every sequence of `reconnect` messages bearing the same device
identifier (in either variant), after the last one only the most recently
received socket is bound to that identifier in the Connection Registry
(parts 2-3 and 7-8), every earlier socket of the sequence other than the
last has been terminated (parts 4 and 9), and every socket bound to the
identifier before the sequence, other than the last, has been terminated
as well (part 5); parts 1 and 6 identify the run of the event sequence
with the folded handler. -/
theorem C1_reconnect_newest_wins
    (s : SState) (s2 : S2State)
    (hw : (keysOf s.clients).Nodup) (hw2 : (keysOf s2.clients).Nodup)
    (now : Nat) (v : JVal) (c0 : ConnId) (u0 : JVal) (cs : List (ConnId × JVal)) :
    runEvents1 s (((c0, u0) :: cs).map
        (fun q => Event.msg q.1 now (Payload.obj (mkReconnect v q.2)))) =
      some (foldRec1 now v s ((c0, u0) :: cs))
    ∧ (∃ i, mapGet (foldRec1 now v s ((c0, u0) :: cs)).clients (lastKey c0 cs) = some i ∧
        i.ssid = v)
    ∧ (∀ c' i', mapGet (foldRec1 now v s ((c0, u0) :: cs)).clients c' = some i' →
        i'.ssid = v → c' = lastKey c0 cs)
    ∧ (∀ q ∈ (c0, u0) :: cs, q.1 ≠ lastKey c0 cs →
        connOpen (foldRec1 now v s ((c0, u0) :: cs)).conns q.1 = false)
    ∧ (∀ c' i', mapGet s.clients c' = some i' → i'.ssid = v → c' ≠ lastKey c0 cs →
        connOpen (foldRec1 now v s ((c0, u0) :: cs)).conns c' = false)
    ∧ runMsgs2 s2 (((c0, u0) :: cs).map
        (fun q => (q.1, now, Payload.obj (mkReconnect v q.2)))) =
      some (foldRec2 now v s2 ((c0, u0) :: cs))
    ∧ (∃ i, mapGet (foldRec2 now v s2 ((c0, u0) :: cs)).clients (lastKey c0 cs) = some i ∧
        i.ssid = v)
    ∧ (∀ c' i', mapGet (foldRec2 now v s2 ((c0, u0) :: cs)).clients c' = some i' →
        i'.ssid = v → c' = lastKey c0 cs)
    ∧ (∀ q ∈ (c0, u0) :: cs, q.1 ≠ lastKey c0 cs →
        connOpen (foldRec2 now v s2 ((c0, u0) :: cs)).conns q.1 = false) := by
  have hbase := recInv_base (v := v) (p := (s.clients, s.conns)) c0 u0 now hw
  have hrun := foldRecCore_run now v cs (recCore v c0 now (s.clients, s.conns))
    [(c0, u0)] c0 hbase
  have hbase2 := recInv_base (v := v) (p := (s2.clients, s2.conns)) c0 u0 now hw2
  have hrun2 := foldRecCore_run now v cs (recCore v c0 now (s2.clients, s2.conns))
    [(c0, u0)] c0 hbase2
  have hpair := foldRec1_core now v ((c0, u0) :: cs) s
  have hcl : (foldRec1 now v s ((c0, u0) :: cs)).clients =
      (foldRecCore now v (s.clients, s.conns) ((c0, u0) :: cs)).1 := congrArg Prod.fst hpair
  have hco : (foldRec1 now v s ((c0, u0) :: cs)).conns =
      (foldRecCore now v (s.clients, s.conns) ((c0, u0) :: cs)).2 := congrArg Prod.snd hpair
  have hpair2 := foldRec2_core now v ((c0, u0) :: cs) s2
  have hcl2 : (foldRec2 now v s2 ((c0, u0) :: cs)).clients =
      (foldRecCore now v (s2.clients, s2.conns) ((c0, u0) :: cs)).1 := congrArg Prod.fst hpair2
  have hco2 : (foldRec2 now v s2 ((c0, u0) :: cs)).conns =
      (foldRecCore now v (s2.clients, s2.conns) ((c0, u0) :: cs)).2 := congrArg Prod.snd hpair2
  have hcore : foldRecCore now v (s.clients, s.conns) ((c0, u0) :: cs) =
      foldRecCore now v (recCore v c0 now (s.clients, s.conns)) cs := rfl
  have hcore2 : foldRecCore now v (s2.clients, s2.conns) ((c0, u0) :: cs) =
      foldRecCore now v (recCore v c0 now (s2.clients, s2.conns)) cs := rfl
  obtain ⟨_, hA, hB, hC⟩ := hrun
  obtain ⟨_, hA2, hB2, hC2⟩ := hrun2
  refine ⟨runEvents1_recon now v _ s, ?_, ?_, ?_, ?_, runMsgs2_recon now v _ s2, ?_, ?_, ?_⟩
  · rw [hcl, hcore]; exact hB
  · rw [hcl, hcore]; exact hA
  · intro q hq hne
    rw [hco, hcore]
    exact hC q (by simpa using hq) hne
  · intro c' i' hg hs hne
    rw [hco, hcore]
    by_cases hc0 : c' = c0
    · subst hc0
      exact hC (c', u0) (by simp) hne
    · exact foldRecCore_closed_mono now v cs _ c'
        (recCore_closes c0 now hg hs hc0)
  · rw [hcl2, hcore2]; exact hB2
  · rw [hcl2, hcore2]; exact hA2
  · intro q hq hne
    rw [hco2, hcore2]
    exact hC2 q (by simpa using hq) hne

/-- Concrete states for the C1 witness: two open sockets, empty
directories. -/
def c1wState : SState :=
  ⟨[(0, ⟨true, "unknown", true⟩), (1, ⟨true, "unknown", true⟩)], [], [], []⟩

/-- Second-variant concrete state for the C1 witness. -/
def c1wState2 : S2State :=
  ⟨[(0, ⟨true, "unknown", true⟩), (1, ⟨true, "unknown", true⟩)], [], [], []⟩

/-- C1 witness: after sockets 0 then 1 both reconnect as device "D",
socket 0 (the earlier one) has been terminated. -/
theorem C1_reconnect_newest_wins_witness :
    (keysOf c1wState.clients).Nodup ∧
    connOpen (foldRec1 7 (.str "D") c1wState [(0, JVal.undef), (1, JVal.undef)]).conns 0 =
      false :=
  ⟨by decide,
   (C1_reconnect_newest_wins c1wState c1wState2 (by decide) (by decide) 7 (.str "D")
      0 JVal.undef [(1, JVal.undef)]).2.2.2.1 (0, JVal.undef) (by decide) (by decide)⟩

/-! ### Claim C2: ownership frame property -/

theorem jvalOr_truthy {a : JVal} (b : JVal) (h : a.truthy = true) : jvalOr a b = a := by
  simp [jvalOr, h]

theorem owner_mapSet_keep {esp : List (JVal × EspInfo)} {d : JVal} {e0 : EspInfo}
    (w : JVal) (r : EspInfo) (hg : mapGet esp d = some e0)
    (hkeep : w = d → r.userID = e0.userID) :
    ∃ e1, mapGet (mapSet esp w r) d = some e1 ∧ e1.userID = e0.userID := by
  by_cases hw : w = d
  · subst hw
    exact ⟨r, mapGet_set_self _ _ _, hkeep rfl⟩
  · have hne : d ≠ w := fun hh => hw hh.symm
    exact ⟨e0, (mapGet_set_ne _ _ _ r hne).symm ▸ hg, rfl⟩

theorem close1_owner {s : SState} (c : ConnId) (now : Nat) {d : JVal} {e0 : EspInfo}
    (hg : mapGet s.espBySsid d = some e0) (ht : e0.userID.truthy = true) :
    ∃ e1, mapGet (close1 s c now).espBySsid d = some e1 ∧ e1.userID = e0.userID := by
  show ∃ e1, mapGet (close1Esp s c) d = some e1 ∧ e1.userID = e0.userID
  unfold close1Esp
  cases hc : mapGet s.clients c with
  | none => exact ⟨e0, hg, rfl⟩
  | some info =>
    dsimp only
    by_cases hts : info.ssid.truthy = true
    · rw [if_pos hts]
      cases he : mapGet s.espBySsid info.ssid with
      | none => exact ⟨e0, hg, rfl⟩
      | some e =>
        refine owner_mapSet_keep _ _ hg ?_
        intro hw
        rw [hw] at he
        have heq : e = e0 := Option.some.inj (he.symm.trans hg)
        subst heq
        exact jvalOr_truthy _ ht
    · rw [if_neg hts]
      exact ⟨e0, hg, rfl⟩

theorem deviceSweepStep_owner (now : Nat) {d : JVal} {u : JVal}
    (acc : SState × Sends) (entry : ConnId × ClientInfo)
    (hu : u.truthy = true)
    (h : ∃ e1, mapGet acc.1.espBySsid d = some e1 ∧ e1.userID = u) :
    ∃ e1, mapGet (deviceSweepStep now acc entry).1.espBySsid d = some e1 ∧
      e1.userID = u := by
  obtain ⟨e1, hg, he⟩ := h
  unfold deviceSweepStep
  by_cases hstale : 15000 < now - entry.2.last
  · simp only [if_pos hstale]
    cases hget : mapGet acc.1.espBySsid entry.2.ssid with
    | none => exact ⟨e1, hg, he⟩
    | some e =>
      have h2 : ∃ e2, mapGet (mapSet acc.1.espBySsid entry.2.ssid
          ⟨none, jvalOr e.userID (.str ""), "offline", none⟩) d = some e2 ∧
          e2.userID = e1.userID := by
        refine owner_mapSet_keep _ _ hg ?_
        intro hw
        rw [hw] at hget
        have heq : e = e1 := Option.some.inj (hget.symm.trans hg)
        subst heq
        exact jvalOr_truthy _ (he ▸ hu)
      obtain ⟨e2, hg2, he2⟩ := h2
      exact ⟨e2, hg2, he2.trans he⟩
  · simp only [if_neg hstale]
    exact ⟨e1, hg, he⟩

theorem deviceSweep1_owner {s : SState} (now : Nat) {d : JVal} {e0 : EspInfo}
    (hg : mapGet s.espBySsid d = some e0) (ht : e0.userID.truthy = true) :
    ∃ e1, mapGet (deviceSweep1 s now).1.espBySsid d = some e1 ∧
      e1.userID = e0.userID := by
  unfold deviceSweep1
  exact foldl_inv
    (fun acc => ∃ e1, mapGet acc.1.espBySsid d = some e1 ∧ e1.userID = e0.userID)
    (deviceSweepStep now) s.clients (s, []) ⟨e0, hg, rfl⟩
    (fun acc entry _ h => deviceSweepStep_owner now acc entry ht h)

theorem pingSweepConn_esp (now : Nat) (acc : SState × Sends) (c : ConnId) :
    (pingSweepConn now acc c).1.espBySsid = acc.1.espBySsid := by
  unfold pingSweepConn
  dsimp only
  cases mapGet acc.1.conns c with
  | none => rfl
  | some st =>
    dsimp only
    by_cases h1 : st.clientType ≠ "frontend"
    · rw [if_pos h1]
    · rw [if_neg h1]
      by_cases h2 : (!st.isAlive) = true
      · rw [if_pos h2]
      · rw [if_neg h2]

theorem pingSweep1_esp (s : SState) (now : Nat) :
    (pingSweep1 s now).1.espBySsid = s.espBySsid := by
  unfold pingSweep1
  exact foldl_inv (fun acc => acc.1.espBySsid = s.espBySsid)
    (pingSweepConn now) (openConns s.conns) (s, []) rfl
    (fun acc c _ h => (pingSweepConn_esp now acc c).trans h)

theorem routeMessage1_owner {s : SState} {c : ConnId} {now : Nat} {m : Msg}
    {s' : SState} {out : Sends}
    (h : routeMessage1 s c now (Payload.obj m) = some (s', out))
    (hnds : ¬(m.type = .str "deviceSelected"))
    {d : JVal} {e0 : EspInfo} (hg : mapGet s.espBySsid d = some e0)
    (ht : e0.userID.truthy = true) :
    ∃ e1, mapGet s'.espBySsid d = some e1 ∧ e1.userID = e0.userID := by
  simp only [routeMessage1] at h
  by_cases h1 : m.type = .str "reconnect"
  · rw [if_pos h1] at h
    have hx := Option.some.inj h
    have hs' : s' = (reconnect1 s c now m).1 := (congrArg Prod.fst hx).symm
    subst hs'
    refine owner_mapSet_keep _ _ hg ?_
    intro hw
    subst hw
    show jvalOr (jvalOr (oldUserIDOf (mapGet s.espBySsid m.ssid)) m.userID) (.str "") =
      e0.userID
    rw [hg]
    show jvalOr (jvalOr e0.userID m.userID) (.str "") = e0.userID
    rw [jvalOr_truthy _ ht, jvalOr_truthy _ ht]
  · rw [if_neg h1] at h
    by_cases h2 : m.type = .str "heartbeat"
    · rw [if_pos h2] at h
      have hx := Option.some.inj h
      have hs' : s' = (heartbeat1 s c now m).1 := (congrArg Prod.fst hx).symm
      subst hs'
      refine owner_mapSet_keep _ _ hg ?_
      intro hw
      subst hw
      show jvalOr (oldUserIDOf (mapGet s.espBySsid m.ssid)) JVal.null = e0.userID
      rw [hg]
      show jvalOr e0.userID JVal.null = e0.userID
      exact jvalOr_truthy _ ht
    · rw [if_neg h2] at h
      by_cases h3 : m.type = .str "accStatus"
      · rw [if_pos h3] at h
        by_cases h3u : m.userID.truthy
        · rw [if_pos h3u] at h
          have hx := Option.some.inj h
          have hs' : s' = (accStatus1 s c now m).1 := (congrArg Prod.fst hx).symm
          subst hs'
          exact ⟨e0, hg, rfl⟩
        · rw [if_neg h3u] at h
          have hx := Option.some.inj h
          have hs' : s' = s := (congrArg Prod.fst hx).symm
          subst hs'
          exact ⟨e0, hg, rfl⟩
      · rw [if_neg h3] at h
        by_cases h4 : m.type = .str "logout"
        · rw [if_pos h4] at h
          by_cases h4u : m.userID.truthy
          · rw [if_pos h4u] at h
            have hx := Option.some.inj h
            have hs' : s' = (logout1 s now m).1 := (congrArg Prod.fst hx).symm
            subst hs'
            have : (logout1 s now m).1.espBySsid = s.espBySsid := by
              unfold logout1
              cases mapGet s.frontendByUserId m.userID <;> rfl
            rw [this]
            exact ⟨e0, hg, rfl⟩
          · rw [if_neg h4u] at h
            have hx := Option.some.inj h
            have hs' : s' = s := (congrArg Prod.fst hx).symm
            subst hs'
            exact ⟨e0, hg, rfl⟩
        · rw [if_neg h4] at h
          rw [if_neg hnds] at h
          by_cases h6 : m.type = .str "connection"
          · rw [if_pos h6] at h
            have hx := Option.some.inj h
            have hs' : s' = (connection1 s m).1 := (congrArg Prod.fst hx).symm
            subst hs'
            exact ⟨e0, hg, rfl⟩
          · rw [if_neg h6] at h
            by_cases h7 : m.type = .str "nfc"
            · rw [if_pos h7] at h
              have hx := Option.some.inj h
              have hs' : s' = (nfc1 s m).1 := (congrArg Prod.fst hx).symm
              subst hs'
              exact ⟨e0, hg, rfl⟩
            · rw [if_neg h7] at h
              have hx := Option.some.inj h
              have hs' : s' = s := (congrArg Prod.fst hx).symm
              subst hs'
              exact ⟨e0, hg, rfl⟩

theorem step1_owner {s : SState} {e : Event} {s' : SState} {out : Sends}
    (hstep : step1 s e = some (s', out)) (hds : eventIsDeviceSelected e = false)
    {d : JVal} {e0 : EspInfo} (hg : mapGet s.espBySsid d = some e0)
    (ht : e0.userID.truthy = true) :
    ∃ e1, mapGet s'.espBySsid d = some e1 ∧ e1.userID = e0.userID := by
  cases e with
  | connect c =>
    have hx := Option.some.inj hstep
    have hs' : s' = { s with conns := mapSet s.conns c ⟨true, "unknown", true⟩ } :=
      (congrArg Prod.fst hx).symm
    subst hs'
    exact ⟨e0, hg, rfl⟩
  | msg c now p =>
    cases p with
    | malformed => exact absurd hstep (by simp [step1, routeMessage1])
    | jnull => exact absurd hstep (by simp [step1, routeMessage1])
    | obj m =>
      have hnds : ¬(m.type = .str "deviceSelected") := by
        simpa [eventIsDeviceSelected] using hds
      exact routeMessage1_owner hstep hnds hg ht
  | close c now =>
    have hx := Option.some.inj hstep
    have hs' : s' = close1 { s with conns := terminate s.conns c } c now := (congrArg Prod.fst hx).symm
    subst hs'
    exact close1_owner c now hg ht
  | pong c =>
    have hx := Option.some.inj hstep
    have hs' : s' = { s with conns := setAlive s.conns c true } := (congrArg Prod.fst hx).symm
    subst hs'
    exact ⟨e0, hg, rfl⟩
  | devSweep now =>
    have hx := Option.some.inj hstep
    have hs' : s' = (deviceSweep1 s now).1 := (congrArg Prod.fst hx).symm
    subst hs'
    exact deviceSweep1_owner now hg ht
  | pingSweep now =>
    have hx := Option.some.inj hstep
    have hs' : s' = (pingSweep1 s now).1 := (congrArg Prod.fst hx).symm
    subst hs'
    rw [pingSweep1_esp]
    exact ⟨e0, hg, rfl⟩

/-- C2 (amended): a truthy (non-empty) stored `ownerUserId` is unchanged
by any event sequence that contains no `deviceSelected` message — close,
both sweeps, reconnects and heartbeats included. -/
theorem C2_owner_frame : ∀ (evs : List Event) (s : SState),
    (∀ e ∈ evs, eventIsDeviceSelected e = false) →
    ∀ (d : JVal) (e0 : EspInfo), mapGet s.espBySsid d = some e0 →
    e0.userID.truthy = true →
    ∀ (s' : SState), runEvents1 s evs = some s' →
    ∃ e1, mapGet s'.espBySsid d = some e1 ∧ e1.userID = e0.userID := by
  intro evs
  induction evs with
  | nil =>
    intro s _ d e0 hg ht s' hrun
    have hs' : s' = s := (Option.some.inj hrun).symm
    subst hs'
    exact ⟨e0, hg, rfl⟩
  | cons e rest ih =>
    intro s hds d e0 hg ht s' hrun
    simp only [runEvents1] at hrun
    cases hstep : step1 s e with
    | none => rw [hstep] at hrun; exact absurd hrun (by simp)
    | some pr =>
      rw [hstep] at hrun
      obtain ⟨e1, hg1, he1⟩ := @step1_owner s e pr.1 pr.2
        (by rw [hstep]) (hds e (List.mem_cons_self _ _)) d e0 hg ht
      obtain ⟨e2, hg2, he2⟩ := ih pr.1
        (fun x hx => hds x (List.mem_cons_of_mem _ hx)) d e1 hg1 (he1 ▸ ht) s' hrun
      exact ⟨e2, hg2, he2.trans he1⟩

/-- State for the C2 counterexample: one open socket and a device record
whose stored owner is the empty string. -/
def c2cState : SState :=
  ⟨[(0, ⟨true, "unknown", true⟩)], [],
   [(.str "D", ⟨none, .str "", "offline", none⟩)], []⟩

/-- C2 counterexample: a single `reconnect` message (no `deviceSelected`
anywhere) changes the stored `ownerUserId` of device "D" from `""` to
`"U"`, because `oldInfo?.userID || data.userID || ""` takes the message's
value when the stored one is empty.  So the claim "only `deviceSelected`
may change `ownerUserId`" is false as stated. -/
theorem C2_owner_frame_cex :
    (mapGet c2cState.espBySsid (.str "D")).map EspInfo.userID = some (.str "") ∧
    (runEvents1 c2cState
        [Event.msg 0 7 (Payload.obj (mkReconnect (.str "D") (.str "U")))]).map
      (fun s => (mapGet s.espBySsid (.str "D")).map EspInfo.userID) =
      some (some (.str "U")) := by
  constructor <;> rfl

/-- State for the C2 witness: socket 0 is device "D" owned by "A". -/
def c2wState : SState :=
  ⟨[(0, ⟨true, "esp", true⟩)], [(0, ⟨5, .str "D"⟩)],
   [(.str "D", ⟨some 0, .str "A", "online", some 5⟩)], []⟩

/-- C2 witness: a close event for the socket of device "D" (owner "A")
keeps `ownerUserId = "A"`. -/
theorem C2_owner_frame_witness :
    ∃ e1, mapGet
        (close1 { c2wState with conns := terminate c2wState.conns 0 } 0 9).espBySsid
        (.str "D") = some e1 ∧ e1.userID = .str "A" :=
  C2_owner_frame [Event.close 0 9] c2wState (by decide) (.str "D")
    ⟨some 0, .str "A", "online", some 5⟩ (by decide) (by decide)
    (close1 { c2wState with conns := terminate c2wState.conns 0 } 0 9) rfl

/-! ### Claim C3: pairing conflict -/

/-- C3: a `deviceSelected` for device `dn` owned by user `a` (truthy)
whose frontend record is online, requested by user `b ≠ a`: the state —
in particular `ownerUserId` — is unchanged, and the only send, when `b`'s
frontend socket is open, is the unavailable notice to `b`'s socket;
nothing is sent to `a` or to the device. -/
theorem C3_pair_conflict (s : SState) (c : ConnId) (now : Nat)
    (dn a b : JVal) (e : EspInfo) (fa : FrontInfo)
    (he : mapGet s.espBySsid dn = some e) (hea : e.userID = a)
    (hta : a.truthy = true) (_hab : a ≠ b)
    (hfa : mapGet s.frontendByUserId a = some fa) (hon : fa.status = "online") :
    routeMessage1 s c now (Payload.obj (mkDeviceSelected dn b)) =
      some (s,
        match mapGet s.frontendByUserId b with
        | some f => if connOpen s.conns f.ws then [(f.ws, OutMsg.deviceStatus dn)] else []
        | none => []) := by
  have hroute : routeMessage1 s c now (Payload.obj (mkDeviceSelected dn b)) =
      deviceSelected1 s (mkDeviceSelected dn b) := by
    simp only [routeMessage1, mkDeviceSelected]
    rw [if_neg (by decide), if_neg (by decide), if_neg (by decide), if_neg (by decide),
      if_pos trivial]
  rw [hroute]
  unfold deviceSelected1
  dsimp only [mkDeviceSelected]
  rw [he]
  dsimp only
  rw [if_pos (show e.userID.truthy = true by rw [hea]; exact hta)]
  rw [hea, hfa]
  dsimp only
  rw [if_pos hon]

/-- State for the C3 witness: device "D" owned by "A" (frontend online on
socket 1); user "B" has an open frontend on socket 2. -/
def c3wState : SState :=
  ⟨[(1, ⟨true, "frontend", true⟩), (2, ⟨true, "frontend", true⟩)],
   [], [(.str "D", ⟨some 9, .str "A", "online", some 5⟩)],
   [(.str "A", ⟨1, "online", 5, none⟩), (.str "B", ⟨2, "online", 6, none⟩)]⟩

/-- C3 witness: user "B" selecting "A"'s online device leaves the state
unchanged and sends only the unavailable notice to socket 2. -/
theorem C3_pair_conflict_witness :
    mapGet c3wState.espBySsid (.str "D") = some ⟨some 9, .str "A", "online", some 5⟩ ∧
    routeMessage1 c3wState 2 7 (Payload.obj (mkDeviceSelected (.str "D") (.str "B"))) =
      some (c3wState, [(2, OutMsg.deviceStatus (.str "D"))]) :=
  ⟨by decide,
   (C3_pair_conflict c3wState 2 7 (.str "D") (.str "A") (.str "B")
      ⟨some 9, .str "A", "online", some 5⟩ ⟨1, "online", 5, none⟩
      (by decide) rfl (by decide) (by decide) (by decide) rfl).trans (by decide)⟩

/-! ### Claim C4: crash freedom (refuted: code bug) -/

/-- State for C4: device "D" is stored with owner "A", but no frontend
record for "A" exists, so the handler's `accInfo.status` dereferences
`undefined`. -/
def c4State : SState :=
  ⟨[(0, ⟨true, "frontend", true⟩)], [],
   [(.str "D", ⟨some 0, .str "A", "online", some 5⟩)], []⟩

/-- C4 (code bug): in the first variant, message handling does raise
uncaught exceptions.  A payload that is not valid JSON leaves `data`
undefined (the `catch` is empty) and `data.type` throws, in every state;
and a `deviceSelected` naming a device whose stored owner has no frontend
record throws on `accInfo.status`. -/
theorem C4_no_crash_bug :
    (∀ (s : SState) (c : ConnId) (now : Nat),
      routeMessage1 s c now Payload.malformed = none) ∧
    routeMessage1 c4State 0 7 (Payload.obj (mkDeviceSelected (.str "D") (.str "B"))) =
      none :=
  ⟨fun _ _ _ => rfl, by decide⟩

/-! ### Claim C5: silent drop of malformed or unknown payloads -/

/-- State for the C5 counterexample and witness. -/
def c5State : SState := ⟨[(0, ⟨true, "unknown", true⟩)], [], [], []⟩

/-- Second-variant state for the C5 witness. -/
def c5State2 : S2State := ⟨[(0, ⟨true, "unknown", true⟩)], [], [], []⟩

/-- C5 counterexample: in the first variant a payload that is not valid
JSON is not silently dropped — handling it raises (`data` is undefined
after the empty `catch`, and `data.type` throws), modelled as `none`
rather than an unchanged state with no sends. -/
theorem C5_silent_drop_cex :
    routeMessage1 c5State 0 3 Payload.malformed = none := rfl

/-- C5 (amended): the second variant drops a non-JSON payload silently
(no reply, state unchanged), and both variants silently drop a parsed
object payload whose `type` is missing or unrecognized. -/
theorem C5_silent_drop (s2 : S2State) (c : ConnId) (now : Nat)
    (s : SState) (c' : ConnId) (now' : Nat) (m : Msg)
    (hm : m.type ∉ ([.str "reconnect", .str "heartbeat", .str "accStatus", .str "logout",
        .str "deviceSelected", .str "connection", .str "nfc"] : List JVal)) :
    routeMessage2 s2 c now Payload.malformed = some (s2, []) ∧
    routeMessage1 s c' now' (Payload.obj m) = some (s, []) ∧
    routeMessage2 s2 c now (Payload.obj m) = some (s2, []) := by
  simp only [List.mem_cons, List.not_mem_nil, or_false, not_or] at hm
  obtain ⟨h1, h2, h3, h4, h5, h6, h7⟩ := hm
  refine ⟨rfl, ?_, ?_⟩
  · simp only [routeMessage1]
    rw [if_neg h1, if_neg h2, if_neg h3, if_neg h4, if_neg h5, if_neg h6, if_neg h7]
  · simp only [routeMessage2]
    rw [if_neg h1, if_neg h2, if_neg h7, if_neg h3]

/-- An object payload with an unrecognized `type`. -/
def c5Msg : Msg := ⟨.str "bogus", .undef, .undef, .undef, .undef⟩

/-- C5 witness: a payload of type "bogus" is dropped with no state change
and no sends, in both variants; a non-JSON payload is dropped by the
second variant. -/
theorem C5_silent_drop_witness :
    (c5Msg.type ∉ ([.str "reconnect", .str "heartbeat", .str "accStatus", .str "logout",
        .str "deviceSelected", .str "connection", .str "nfc"] : List JVal)) ∧
    routeMessage2 c5State2 0 3 Payload.malformed = some (c5State2, []) ∧
    routeMessage1 c5State 0 3 (Payload.obj c5Msg) = some (c5State, []) ∧
    routeMessage2 c5State2 0 3 (Payload.obj c5Msg) = some (c5State2, []) :=
  ⟨by decide,
   (C5_silent_drop c5State2 0 3 c5State 0 3 c5Msg (by decide)).1,
   (C5_silent_drop c5State2 0 3 c5State 0 3 c5Msg (by decide)).2.1,
   (C5_silent_drop c5State2 0 3 c5State 0 3 c5Msg (by decide)).2.2⟩

/-! ### Claim C7: queryConnection -/

theorem findSsidByUserId_some {u : JVal} : ∀ {l : List (JVal × EspInfo)}
    {ssid : JVal} {info : EspInfo},
    findSsidByUserId u l = some (ssid, info) → (ssid, info) ∈ l ∧ info.userID = u := by
  intro l
  induction l with
  | nil => intro ssid info h; exact absurd h (by simp [findSsidByUserId])
  | cons p rest ih =>
    intro ssid info h
    obtain ⟨ps, pi⟩ := p
    by_cases hp : pi.userID = u
    · simp only [findSsidByUserId, if_pos hp] at h
      cases h
      exact ⟨List.mem_cons_self _ _, hp⟩
    · simp only [findSsidByUserId, if_neg hp] at h
      obtain ⟨h1, h2⟩ := ih h
      exact ⟨List.mem_cons_of_mem _ h1, h2⟩

theorem findSsidByUserId_none {u : JVal} : ∀ {l : List (JVal × EspInfo)},
    findSsidByUserId u l = none ↔ ∀ p ∈ l, p.2.userID ≠ u := by
  intro l
  induction l with
  | nil => simp [findSsidByUserId]
  | cons p rest ih =>
    obtain ⟨ps, pi⟩ := p
    by_cases hp : pi.userID = u
    · simp [findSsidByUserId, hp]
    · simp [findSsidByUserId, hp, ih]

/-- C7: a `connection` (queryConnection) message from user `u` whose
frontend socket is open changes nothing and replies exactly once, to that
socket: with the found device's identifier and "Connected" precisely when
its `stats` is online, or with an empty identifier and "Not connected"
when no device record's `userID` equals `u` (parts 2-3 relate the lookup
to the Device Directory). -/
theorem C7_query_connection (s : SState) (c : ConnId) (now : Nat) (u : JVal)
    (f : FrontInfo) (hf : mapGet s.frontendByUserId u = some f)
    (hopen : connOpen s.conns f.ws = true) :
    routeMessage1 s c now (Payload.obj (mkConnectionMsg u)) =
      some (s, [(f.ws,
        match findSsidByUserId u s.espBySsid with
        | some (ssid, info) =>
          OutMsg.deviceConnection ssid
            (if info.stats = "online" then "Connected" else "Not connected")
        | none => OutMsg.deviceConnection (.str "") "Not connected")])
    ∧ (∀ (ssid : JVal) (info : EspInfo),
        findSsidByUserId u s.espBySsid = some (ssid, info) →
        (ssid, info) ∈ s.espBySsid ∧ info.userID = u)
    ∧ (findSsidByUserId u s.espBySsid = none ↔ ∀ p ∈ s.espBySsid, p.2.userID ≠ u) := by
  refine ⟨?_, fun ssid info h => findSsidByUserId_some h, findSsidByUserId_none⟩
  have hroute : routeMessage1 s c now (Payload.obj (mkConnectionMsg u)) =
      some (connection1 s (mkConnectionMsg u)) := by
    simp only [routeMessage1, mkConnectionMsg]
    rw [if_neg (by decide), if_neg (by decide), if_neg (by decide), if_neg (by decide),
      if_neg (by decide), if_pos trivial]
  rw [hroute]
  unfold connection1
  dsimp only [mkConnectionMsg]
  rw [hf]
  dsimp only
  rw [if_pos hopen]

/-- State for the C7 witness: user "U" owns device "D" (offline), with an
open frontend on socket 1. -/
def c7wState : SState :=
  ⟨[(1, ⟨true, "frontend", true⟩)], [],
   [(.str "D", ⟨none, .str "U", "offline", none⟩)],
   [(.str "U", ⟨1, "online", 5, none⟩)]⟩

/-- C7 witness: querying for "U" replies "D"/"Not connected" to socket 1
(the owner is retained while the device is offline, as in the spec's
closing scenario). -/
theorem C7_query_connection_witness :
    connOpen c7wState.conns 1 = true ∧
    routeMessage1 c7wState 1 8 (Payload.obj (mkConnectionMsg (.str "U"))) =
      some (c7wState, [(1, OutMsg.deviceConnection (.str "D") "Not connected")]) :=
  ⟨by decide,
   ((C7_query_connection c7wState 1 8 (.str "U") ⟨1, "online", 5, none⟩
      (by decide) (by decide)).1).trans (by decide)⟩

/-! ### Claim C8: logout -/

/-- C8 (amended): `logout` with a truthy `userID`: when a record exists,
its `status` goes offline and `last` is restamped — the socket reference
and `lastSeen` are kept, and this happens even when the record is already
offline; when no record exists, nothing changes.  No reply either way. -/
theorem C8_logout (s : SState) (c : ConnId) (now : Nat) (u : JVal)
    (hu : u.truthy = true) :
    routeMessage1 s c now (Payload.obj (mkLogout u)) =
      some (match mapGet s.frontendByUserId u with
        | some f =>
          ({ s with frontendByUserId :=
              mapSet s.frontendByUserId u { f with status := "offline", last := now } },
           ([] : Sends))
        | none => (s, [])) := by
  have hroute : routeMessage1 s c now (Payload.obj (mkLogout u)) =
      some (logout1 s now (mkLogout u)) := by
    simp only [routeMessage1, mkLogout]
    rw [if_neg (by decide), if_neg (by decide), if_neg (by decide), if_pos trivial, if_pos hu]
  rw [hroute]
  unfold logout1
  dsimp only [mkLogout]

/-- State for the C8 counterexample and witness: user "U" has an
already-offline record still holding socket 0. -/
def c8State : SState :=
  ⟨[(0, ⟨true, "frontend", true⟩)], [], [],
   [(.str "U", ⟨0, "offline", 5, none⟩)]⟩

/-- C8 counterexample: after `logout` for "U", the record still holds the
socket reference (`ws = 0`, the claim says it is cleared) and `last` went
5 → 9 even though the session was already offline (the claim says an
already-offline logout changes nothing). -/
theorem C8_logout_cex :
    (routeMessage1 c8State 0 9 (Payload.obj (mkLogout (.str "U")))).map
      (fun pr => mapGet pr.1.frontendByUserId (.str "U")) =
      some (some ⟨0, "offline", 9, none⟩) := by decide

/-- C8 witness: the amended description evaluated on a concrete state. -/
theorem C8_logout_witness :
    (JVal.str "U").truthy = true ∧
    routeMessage1 c8State 0 9 (Payload.obj (mkLogout (.str "U"))) =
      some ({ c8State with
                frontendByUserId :=
                  mapSet c8State.frontendByUserId (.str "U") ⟨0, "offline", 9, none⟩ },
            []) :=
  ⟨by decide, (C8_logout c8State 0 9 (.str "U") (by decide)).trans (by decide)⟩

/-! ### Claim C10: deviceSelected silent no-op branches -/

/-- The device record's socket is absent or not open. -/
def espConnClosed (s : SState) (e : EspInfo) : Prop :=
  ∀ w, e.ws = some w → connOpen s.conns w = false

theorem linkDevice1_closed {s : SState} {m : Msg} {e : EspInfo}
    (hcl : espConnClosed s e) : linkDevice1 s m (some e) = (s, []) := by
  unfold linkDevice1
  dsimp only
  cases hw : e.ws with
  | none => rfl
  | some w =>
    dsimp only
    rw [if_neg (by simp [hcl w hw])]

/-- C10 (amended): a `deviceSelected` naming a device with no record, or
whose record's socket is null or not open while its stored owner is
falsy, or truthy with an existing non-online frontend record, changes
nothing and sends nothing.  (When the truthy stored owner has no frontend
record at all, the handler instead throws — see the counterexample.) -/
theorem C10_select_noop (s : SState) (c : ConnId) (now : Nat) (dn uid : JVal)
    (h : mapGet s.espBySsid dn = none
      ∨ (∃ e, mapGet s.espBySsid dn = some e ∧ e.userID.truthy = false ∧
          espConnClosed s e)
      ∨ (∃ e fa, mapGet s.espBySsid dn = some e ∧ e.userID.truthy = true ∧
          mapGet s.frontendByUserId e.userID = some fa ∧ fa.status ≠ "online" ∧
          espConnClosed s e)) :
    routeMessage1 s c now (Payload.obj (mkDeviceSelected dn uid)) = some (s, []) := by
  have hroute : routeMessage1 s c now (Payload.obj (mkDeviceSelected dn uid)) =
      deviceSelected1 s (mkDeviceSelected dn uid) := by
    simp only [routeMessage1, mkDeviceSelected]
    rw [if_neg (by decide), if_neg (by decide), if_neg (by decide), if_neg (by decide),
      if_pos trivial]
  rw [hroute]
  unfold deviceSelected1
  dsimp only [mkDeviceSelected]
  rcases h with h | ⟨e, hg, hfalsy, hcl⟩ | ⟨e, fa, hg, htruthy, hfa, hnon, hcl⟩
  · rw [h]
    rfl
  · rw [hg]
    dsimp only
    rw [if_neg (by simp [hfalsy])]
    rw [linkDevice1_closed hcl]
  · rw [hg]
    dsimp only
    rw [if_pos htruthy, hfa]
    dsimp only
    rw [if_neg hnon]
    rw [linkDevice1_closed hcl]

/-- State for the C10 witness: empty directories, so device "D" has no
record. -/
def c10State : SState := ⟨[], [], [], []⟩

/-- C10 witness: selecting an unannounced device is a silent no-op. -/
theorem C10_select_noop_witness :
    mapGet c10State.espBySsid (.str "D") = none ∧
    routeMessage1 c10State 0 3 (Payload.obj (mkDeviceSelected (.str "D") (.str "B"))) =
      some (c10State, []) :=
  ⟨rfl, C10_select_noop c10State 0 3 (.str "D") (.str "B") (Or.inl rfl)⟩

/-- State for the C10 counterexample: "D" stored with owner "A" (socket
null), but "A" has no frontend record. -/
def c10cState : SState :=
  ⟨[], [], [(.str "D", ⟨none, .str "A", "offline", none⟩)], []⟩

/-- C10 counterexample: the stored owner "A" is certainly not online (it
has no frontend record at all), yet handling is not a silent no-op — it
throws on `accInfo.status` (modelled as `none`). -/
theorem C10_select_noop_cex :
    routeMessage1 c10cState 0 3 (Payload.obj (mkDeviceSelected (.str "D") (.str "B"))) =
      none := rfl

/-! ### Claim C6: device sweep -/

theorem mapGet_mapDelete_none {α β : Type} [DecidableEq α] {m : List (α × β)} {x : α}
    (k : α) (h : mapGet m x = none) : mapGet (mapDelete m k) x = none := by
  by_cases hx : x = k
  · rw [hx]; exact mapGet_mapDelete_self _ _
  · rw [mapGet_mapDelete_ne _ _ _ hx]; exact h

theorem deviceSweepStep_closed (now : Nat) (acc : SState × Sends)
    (entry : ConnId × ClientInfo) {x : ConnId}
    (h : connOpen acc.1.conns x = false) :
    connOpen (deviceSweepStep now acc entry).1.conns x = false := by
  unfold deviceSweepStep
  dsimp only
  by_cases hs : 15000 < now - entry.2.last
  · rw [if_pos hs]
    exact connOpen_terminate_false _ h
  · rw [if_neg hs]; exact h

theorem deviceSweepStep_clients_none (now : Nat) (acc : SState × Sends)
    (entry : ConnId × ClientInfo) {x : ConnId}
    (h : mapGet acc.1.clients x = none) :
    mapGet (deviceSweepStep now acc entry).1.clients x = none := by
  unfold deviceSweepStep
  dsimp only
  by_cases hs : 15000 < now - entry.2.last
  · rw [if_pos hs]
    exact mapGet_mapDelete_none _ h
  · rw [if_neg hs]; exact h

theorem deviceSweepStep_out_mono (now : Nat) (acc : SState × Sends)
    (entry : ConnId × ClientInfo) {z : ConnId × OutMsg} (h : z ∈ acc.2) :
    z ∈ (deviceSweepStep now acc entry).2 := by
  unfold deviceSweepStep
  dsimp only
  by_cases hs : 15000 < now - entry.2.last
  · rw [if_pos hs]
    exact List.mem_append_left _ h
  · rw [if_neg hs]; exact h

/-- A device record of the shape the sweep writes is a fixed point of
further sweep writes. -/
def sweptFixed (r : EspInfo) : Prop :=
  r = ⟨none, jvalOr r.userID (.str ""), "offline", none⟩

theorem jvalOr_empty_idem (u : JVal) :
    jvalOr (jvalOr u (.str "")) (.str "") = jvalOr u (.str "") := by
  by_cases h : u.truthy = true
  · rw [jvalOr_truthy _ h, jvalOr_truthy _ h]
  · have hval : jvalOr u (.str "") = .str "" := by
      unfold jvalOr
      rw [if_neg h]
    rw [hval]
    rfl

theorem deviceSweepStep_fixed (now : Nat) (acc : SState × Sends)
    (entry : ConnId × ClientInfo) {d : JVal} {r : EspInfo}
    (hr : mapGet acc.1.espBySsid d = some r) (hf : sweptFixed r) :
    mapGet (deviceSweepStep now acc entry).1.espBySsid d = some r := by
  unfold deviceSweepStep
  dsimp only
  by_cases hs : 15000 < now - entry.2.last
  · rw [if_pos hs]
    by_cases hd : entry.2.ssid = d
    · rw [hd, hr]
      dsimp only
      rw [mapGet_set_self]
      exact congrArg some hf.symm
    · cases hget : mapGet acc.1.espBySsid entry.2.ssid with
      | none => exact hr
      | some e =>
        have hne : d ≠ entry.2.ssid := fun hh => hd hh.symm
        rw [mapGet_set_ne _ _ _ _ hne]
        exact hr
  · rw [if_neg hs]; exact hr

theorem deviceSweepStep_espPresence (now : Nat) (acc : SState × Sends)
    (entry : ConnId × ClientInfo) {d : JVal} {u : JVal}
    (h : ∃ e1, mapGet acc.1.espBySsid d = some e1 ∧
      (u.truthy = true → e1.userID = u)) :
    ∃ e1, mapGet (deviceSweepStep now acc entry).1.espBySsid d = some e1 ∧
      (u.truthy = true → e1.userID = u) := by
  obtain ⟨e1, hg, he⟩ := h
  unfold deviceSweepStep
  dsimp only
  by_cases hs : 15000 < now - entry.2.last
  · rw [if_pos hs]
    by_cases hd : entry.2.ssid = d
    · rw [hd, hg]
      dsimp only
      refine ⟨⟨none, jvalOr e1.userID (.str ""), "offline", none⟩, mapGet_set_self _ _ _, ?_⟩
      intro ht
      show jvalOr e1.userID (.str "") = u
      rw [he ht, jvalOr_truthy _ ht]
    · cases hget : mapGet acc.1.espBySsid entry.2.ssid with
      | none => exact ⟨e1, hg, he⟩
      | some e =>
        have hne : d ≠ entry.2.ssid := fun hh => hd hh.symm
        rw [mapGet_set_ne _ _ _ _ hne]
        exact ⟨e1, hg, he⟩
  · rw [if_neg hs]; exact ⟨e1, hg, he⟩

theorem foldl_sweep_closed (now : Nat) (l : List (ConnId × ClientInfo))
    (acc : SState × Sends) {x : ConnId} (h : connOpen acc.1.conns x = false) :
    connOpen (l.foldl (deviceSweepStep now) acc).1.conns x = false :=
  foldl_inv (fun a => connOpen a.1.conns x = false) _ l acc h
    (fun a b _ hb => deviceSweepStep_closed now a b hb)

theorem foldl_sweep_out_mono (now : Nat) (l : List (ConnId × ClientInfo))
    (acc : SState × Sends) {z : ConnId × OutMsg} (h : z ∈ acc.2) :
    z ∈ (l.foldl (deviceSweepStep now) acc).2 :=
  foldl_inv (fun a => z ∈ a.2) _ l acc h
    (fun a b _ hb => deviceSweepStep_out_mono now a b hb)

/-- The conclusions of C6 about one stale entry. -/
theorem deviceSweep1_stale (s : SState) (now : Nat)
    (hw : (keysOf s.clients).Nodup)
    {x : ConnId} {info : ClientInfo}
    (hx : mapGet s.clients x = some info) (hstale : 15000 < now - info.last) :
    mapGet (deviceSweep1 s now).1.clients x = none ∧
    connOpen (deviceSweep1 s now).1.conns x = false ∧
    (∀ e, mapGet s.espBySsid info.ssid = some e →
      ∃ e', mapGet (deviceSweep1 s now).1.espBySsid info.ssid = some e' ∧
        e'.ws = none ∧ e'.stats = "offline" ∧
        (e.userID.truthy = true → e'.userID = e.userID)) ∧
    (∀ c2, connOpen (deviceSweep1 s now).1.conns c2 = true →
      (c2, OutMsg.statusOffline info.ssid) ∈ (deviceSweep1 s now).2) := by
  obtain ⟨l1, l2, hsplit⟩ := List.append_of_mem (mapGet_mem hx)
  have hfold : deviceSweep1 s now =
      l2.foldl (deviceSweepStep now)
        (deviceSweepStep now (l1.foldl (deviceSweepStep now) (s, [])) (x, info)) := by
    unfold deviceSweep1
    rw [hsplit, List.foldl_append, List.foldl_cons]
  set acc1 := l1.foldl (deviceSweepStep now) (s, []) with hacc1
  have hstep : deviceSweepStep now acc1 (x, info) =
      ({ acc1.1 with
          conns := terminate acc1.1.conns x,
          clients := mapDelete acc1.1.clients x,
          espBySsid :=
            match mapGet acc1.1.espBySsid info.ssid with
            | some e =>
              mapSet acc1.1.espBySsid info.ssid
                ⟨none, jvalOr e.userID (.str ""), "offline", none⟩
            | none => acc1.1.espBySsid },
        acc1.2 ++ (openConns acc1.1.conns).map
          (fun c2 => (c2, OutMsg.statusOffline info.ssid))) := by
    unfold deviceSweepStep
    dsimp only
    rw [if_pos hstale]
  refine ⟨?_, ?_, ?_, ?_⟩
  · rw [hfold]
    apply foldl_inv (fun (a : SState × Sends) => mapGet a.1.clients x = none)
      (deviceSweepStep now) l2
    · rw [hstep]
      exact mapGet_mapDelete_self _ _
    · exact fun a b _ hb => deviceSweepStep_clients_none now a b hb
  · rw [hfold]
    apply foldl_sweep_closed
    rw [hstep]
    show connOpen (terminate acc1.1.conns x) x = false
    rw [connOpen_terminate]
    simp
  · intro e hge
    have hpres : ∃ e1, mapGet acc1.1.espBySsid info.ssid = some e1 ∧
        (e.userID.truthy = true → e1.userID = e.userID) := by
      apply foldl_inv (fun (a : SState × Sends) =>
        ∃ e1, mapGet a.1.espBySsid info.ssid = some e1 ∧
          (e.userID.truthy = true → e1.userID = e.userID)) (deviceSweepStep now) l1
      · exact ⟨e, hge, fun _ => rfl⟩
      · exact fun a b _ hb => deviceSweepStep_espPresence now a b hb
    obtain ⟨e1, hg1, he1⟩ := hpres
    have hwrite : mapGet (deviceSweepStep now acc1 (x, info)).1.espBySsid info.ssid =
        some ⟨none, jvalOr e1.userID (.str ""), "offline", none⟩ := by
      rw [hstep]
      show mapGet (match mapGet acc1.1.espBySsid info.ssid with
        | some e =>
          mapSet acc1.1.espBySsid info.ssid ⟨none, jvalOr e.userID (.str ""), "offline", none⟩
        | none => acc1.1.espBySsid) info.ssid = _
      rw [hg1]
      exact mapGet_set_self _ _ _
    have hfix : sweptFixed ⟨none, jvalOr e1.userID (.str ""), "offline", none⟩ := by
      unfold sweptFixed
      dsimp only
      rw [jvalOr_empty_idem]
    have hfinal : mapGet (deviceSweep1 s now).1.espBySsid info.ssid =
        some ⟨none, jvalOr e1.userID (.str ""), "offline", none⟩ := by
      rw [hfold]
      apply foldl_inv (fun (a : SState × Sends) => mapGet a.1.espBySsid info.ssid =
        some ⟨none, jvalOr e1.userID (.str ""), "offline", none⟩)
        (deviceSweepStep now) l2 _ hwrite
      exact fun a b _ hb => deviceSweepStep_fixed now a b hb hfix
    refine ⟨⟨none, jvalOr e1.userID (.str ""), "offline", none⟩, hfinal, rfl, rfl, ?_⟩
    intro ht
    show jvalOr e1.userID (.str "") = e.userID
    rw [he1 ht, jvalOr_truthy _ ht]
  · intro c2 hopen2
    have hopen1 : connOpen acc1.1.conns c2 = true := by
      by_contra hcl
      have hcl' : connOpen acc1.1.conns c2 = false := by
        cases hb : connOpen acc1.1.conns c2
        · rfl
        · exact absurd hb hcl
      have : connOpen (deviceSweep1 s now).1.conns c2 = false := by
        rw [hfold]
        apply foldl_sweep_closed
        exact deviceSweepStep_closed now acc1 (x, info) hcl'
      rw [hopen2] at this
      exact absurd this (by simp)
    have hinb : (c2, OutMsg.statusOffline info.ssid) ∈
        (deviceSweepStep now acc1 (x, info)).2 := by
      rw [hstep]
      exact List.mem_append_right _
        (List.mem_map.mpr ⟨c2, mem_openConns hopen1, rfl⟩)
    rw [hfold]
    exact foldl_sweep_out_mono now l2 _ hinb

theorem mem_keys_unique {α β : Type} [DecidableEq α] {l : List (α × β)}
    (hw : (keysOf l).Nodup) {k : α} {v1 v2 : β} (h1 : (k, v1) ∈ l)
    (h2 : (k, v2) ∈ l) : v1 = v2 :=
  Option.some.inj ((mem_mapGet hw h1).symm.trans (mem_mapGet hw h2))

/-- A registry entry within the threshold is untouched by the sweep. -/
theorem deviceSweep1_fresh (s : SState) (now : Nat)
    (hw : (keysOf s.clients).Nodup)
    {x : ConnId} {info : ClientInfo}
    (hx : mapGet s.clients x = some info) (hfresh : now - info.last ≤ 15000) :
    mapGet (deviceSweep1 s now).1.clients x = some info ∧
    connOpen (deviceSweep1 s now).1.conns x = connOpen s.conns x := by
  unfold deviceSweep1
  apply foldl_inv (fun (a : SState × Sends) =>
    mapGet a.1.clients x = some info ∧ connOpen a.1.conns x = connOpen s.conns x)
    (deviceSweepStep now) s.clients (s, []) ⟨hx, rfl⟩
  intro a b hb hP
  obtain ⟨h1, h2⟩ := hP
  by_cases hbx : b.1 = x
  · have hb' : (x, b.2) ∈ s.clients := by
      have hbm : (b.1, b.2) ∈ s.clients := by
        obtain ⟨b1, b2⟩ := b
        exact hb
      rw [hbx] at hbm
      exact hbm
    have hbv : b.2 = info := mem_keys_unique hw hb' (mapGet_mem hx)
    unfold deviceSweepStep
    dsimp only
    rw [if_neg (by rw [hbv]; exact Nat.not_lt.mpr hfresh)]
    exact ⟨h1, h2⟩
  · unfold deviceSweepStep
    dsimp only
    by_cases hs : 15000 < now - b.2.last
    · rw [if_pos hs]
      refine ⟨?_, ?_⟩
      · rw [mapGet_mapDelete_ne _ _ _ (fun hh => hbx hh.symm)]
        exact h1
      · rw [connOpen_terminate, if_neg (fun hh => hbx hh.symm)]
        exact h2
    · rw [if_neg hs]
      exact ⟨h1, h2⟩

/-- A device record is untouched by the sweep when no registry entry
bound to its identifier has timed out. -/
theorem deviceSweep1_esp_frame (s : SState) (now : Nat) {v : JVal}
    (hv : ∀ q ∈ s.clients, q.2.ssid = v → now - q.2.last ≤ 15000) :
    mapGet (deviceSweep1 s now).1.espBySsid v = mapGet s.espBySsid v := by
  unfold deviceSweep1
  apply foldl_inv (fun (a : SState × Sends) =>
    mapGet a.1.espBySsid v = mapGet s.espBySsid v)
    (deviceSweepStep now) s.clients (s, []) rfl
  intro a b hb hP
  unfold deviceSweepStep
  dsimp only
  by_cases hs : 15000 < now - b.2.last
  · rw [if_pos hs]
    have hbv : b.2.ssid ≠ v := fun hh => absurd hs (Nat.not_lt.mpr (hv b hb hh))
    cases hget : mapGet a.1.espBySsid b.2.ssid with
    | none => exact hP
    | some e =>
      rw [mapGet_set_ne _ _ _ _ (fun hh => hbv hh.symm)]
      exact hP
  · rw [if_neg hs]
    exact hP

/-- C6 (amended): one run of the 5000-ms-interval device sweep at time
`now`, on a registry with unique keys: (1) every registry entry whose
`last` is more than 15000 old fires — the socket is evicted and
terminated, the `DeviceSession` of the entry's ssid has its socket
cleared and status set offline with a truthy `ownerUserId` preserved, and
an offline-status notice for that ssid reaches every socket still open
after the sweep; (2) an entry within the threshold keeps its registry
binding and its socket's open state; (3) a device record changes only if
some registry entry bound to its identifier timed out — which, as the
counterexample shows, can be a stale duplicate entry rather than the
session's current connection. -/
theorem C6_device_sweep (s : SState) (now : Nat)
    (hw : (keysOf s.clients).Nodup) :
    (∀ (x : ConnId) (info : ClientInfo), mapGet s.clients x = some info →
      15000 < now - info.last →
      mapGet (deviceSweep1 s now).1.clients x = none ∧
      connOpen (deviceSweep1 s now).1.conns x = false ∧
      (∀ e, mapGet s.espBySsid info.ssid = some e →
        ∃ e', mapGet (deviceSweep1 s now).1.espBySsid info.ssid = some e' ∧
          e'.ws = none ∧ e'.stats = "offline" ∧
          (e.userID.truthy = true → e'.userID = e.userID)) ∧
      (∀ c2, connOpen (deviceSweep1 s now).1.conns c2 = true →
        (c2, OutMsg.statusOffline info.ssid) ∈ (deviceSweep1 s now).2))
    ∧ (∀ (x : ConnId) (info : ClientInfo), mapGet s.clients x = some info →
      now - info.last ≤ 15000 →
      mapGet (deviceSweep1 s now).1.clients x = some info ∧
      connOpen (deviceSweep1 s now).1.conns x = connOpen s.conns x)
    ∧ (∀ v : JVal, (∀ q ∈ s.clients, q.2.ssid = v → now - q.2.last ≤ 15000) →
      mapGet (deviceSweep1 s now).1.espBySsid v = mapGet s.espBySsid v) :=
  ⟨fun x info hx hs => deviceSweep1_stale s now hw hx hs,
   fun x info hx hf => deviceSweep1_fresh s now hw hx hf,
   fun _ hv => deviceSweep1_esp_frame s now hv⟩

/-- State for the C6 counterexample and witness: sockets 0 and 1 are both
registered for device "D" (two heartbeat sources — heartbeat evicts
nothing); socket 0's entry is stale, socket 1's is fresh and is the
session's current socket. -/
def c6cState : SState :=
  ⟨[(0, ⟨true, "esp", true⟩), (1, ⟨true, "esp", true⟩)],
   [(0, ⟨0, .str "D"⟩), (1, ⟨16000, .str "D"⟩)],
   [(.str "D", ⟨some 1, .null, "online", some 16000⟩)], []⟩

/-- C6 counterexample: device "D"'s session is online with its last
heartbeat at `now` itself (0 < 15000 units ago) and its current socket's
registry entry fresh, yet one sweep at `now = 16000` marks the session
offline (socket cleared) because a *stale duplicate* registry entry bound
to "D" timed out — refuting "becomes offline only if no heartbeat within
the threshold since the last one". -/
theorem C6_device_sweep_cex :
    (mapGet c6cState.espBySsid (.str "D")).map (fun e => (e.stats, e.last)) =
      some ("online", some 16000) ∧
    mapGet c6cState.clients 1 = some ⟨16000, .str "D"⟩ ∧
    (mapGet (deviceSweep1 c6cState 16000).1.espBySsid (.str "D")).map
      (fun e => (e.stats, e.ws)) = some ("offline", none) := by decide

/-- C6 witness: the stale entry of socket 0 fires — 0 is evicted. -/
theorem C6_device_sweep_witness :
    (keysOf c6cState.clients).Nodup ∧
    mapGet (deviceSweep1 c6cState 16000).1.clients 0 = none :=
  ⟨by decide,
   ((C6_device_sweep c6cState 16000 (by decide)).1 0 ⟨0, .str "D"⟩
      (by decide) (by decide)).1⟩

/-! ### Claim C9: directory invariants -/

theorem keysOf_markFirstFrontendOffline (c : ConnId) (now : Nat) :
    ∀ l, keysOf (markFirstFrontendOffline c now l) = keysOf l
  | [] => rfl
  | (k, f) :: rest => by
    unfold markFirstFrontendOffline
    by_cases hw : f.ws = c
    · rw [if_pos hw]
      rfl
    · rw [if_neg hw]
      show k :: keysOf (markFirstFrontendOffline c now rest) = k :: keysOf rest
      rw [keysOf_markFirstFrontendOffline c now rest]

theorem keysOf_map_keep {α β : Type} (f : α × β → α × β)
    (hf : ∀ q, (f q).1 = q.1) : ∀ l : List (α × β), keysOf (l.map f) = keysOf l
  | [] => rfl
  | q :: rest => by
    show (f q).1 :: keysOf (rest.map f) = q.1 :: keysOf rest
    rw [hf q, keysOf_map_keep f hf rest]

theorem reconnect1_wf {s : SState} (c : ConnId) (now : Nat) (m : Msg)
    (h : stateWF s) : stateWF (reconnect1 s c now m).1 :=
  ⟨nodup_keys_mapSet _ _ (nodup_keys_filter _ h.1),
   nodup_keys_mapSet _ _ h.2.1, h.2.2⟩

theorem heartbeat1_wf {s : SState} (c : ConnId) (now : Nat) (m : Msg)
    (h : stateWF s) : stateWF (heartbeat1 s c now m).1 :=
  ⟨nodup_keys_mapSet _ _ h.1, nodup_keys_mapSet _ _ h.2.1, h.2.2⟩

theorem accStatus1_wf {s : SState} (c : ConnId) (now : Nat) (m : Msg)
    (h : stateWF s) : stateWF (accStatus1 s c now m).1 :=
  ⟨h.1, h.2.1, nodup_keys_mapSet _ _ h.2.2⟩

theorem logout1_wf {s : SState} (now : Nat) (m : Msg)
    (h : stateWF s) : stateWF (logout1 s now m).1 := by
  unfold logout1
  cases mapGet s.frontendByUserId m.userID with
  | none => exact h
  | some u => exact ⟨h.1, h.2.1, nodup_keys_mapSet _ _ h.2.2⟩

theorem linkDevice1_wf {s : SState} (m : Msg) (eo : Option EspInfo)
    (h : stateWF s) : stateWF (linkDevice1 s m eo).1 := by
  unfold linkDevice1
  cases eo with
  | none => exact h
  | some e =>
    dsimp only
    cases e.ws with
    | none => exact h
    | some w =>
      dsimp only
      by_cases ho : connOpen s.conns w = true
      · rw [if_pos ho]
        exact ⟨h.1, nodup_keys_mapSet _ _ h.2.1, h.2.2⟩
      · rw [if_neg ho]
        exact h

theorem deviceSelected1_wf {s : SState} {m : Msg} {s' : SState} {out : Sends}
    (h : deviceSelected1 s m = some (s', out)) (hwf : stateWF s) : stateWF s' := by
  unfold deviceSelected1 at h
  cases hg : mapGet s.espBySsid m.deviceName with
  | none =>
    rw [hg] at h
    dsimp only at h
    have hs' : s' = (linkDevice1 s m none).1 :=
      (congrArg Prod.fst (Option.some.inj h)).symm
    rw [hs']
    exact linkDevice1_wf m none hwf
  | some e =>
    rw [hg] at h
    dsimp only at h
    by_cases ht : e.userID.truthy = true
    · rw [if_pos ht] at h
      cases hf : mapGet s.frontendByUserId e.userID with
      | none =>
        rw [hf] at h
        exact absurd h (by simp)
      | some a =>
        rw [hf] at h
        dsimp only at h
        by_cases hon : a.status = "online"
        · rw [if_pos hon] at h
          have hs' : s' = s := (congrArg Prod.fst (Option.some.inj h)).symm
          rw [hs']
          exact hwf
        · rw [if_neg hon] at h
          have hs' : s' = (linkDevice1 s m (some e)).1 :=
            (congrArg Prod.fst (Option.some.inj h)).symm
          rw [hs']
          exact linkDevice1_wf m (some e) hwf
    · rw [if_neg ht] at h
      have hs' : s' = (linkDevice1 s m (some e)).1 :=
        (congrArg Prod.fst (Option.some.inj h)).symm
      rw [hs']
      exact linkDevice1_wf m (some e) hwf

theorem close1_wf {s : SState} (c : ConnId) (now : Nat)
    (h : stateWF s) : stateWF (close1 s c now) := by
  refine ⟨nodup_keys_mapDelete _ h.1, ?_, ?_⟩
  · show (keysOf (close1Esp s c)).Nodup
    unfold close1Esp
    cases mapGet s.clients c with
    | none => exact h.2.1
    | some info =>
      dsimp only
      by_cases hts : info.ssid.truthy = true
      · rw [if_pos hts]
        cases mapGet s.espBySsid info.ssid with
        | none => exact h.2.1
        | some e => exact nodup_keys_mapSet _ _ h.2.1
      · rw [if_neg hts]
        exact h.2.1
  · show (keysOf (markFirstFrontendOffline c now s.frontendByUserId)).Nodup
    rw [keysOf_markFirstFrontendOffline]
    exact h.2.2

theorem deviceSweepStep_wf (now : Nat) (acc : SState × Sends)
    (entry : ConnId × ClientInfo) (h : stateWF acc.1) :
    stateWF (deviceSweepStep now acc entry).1 := by
  unfold deviceSweepStep
  dsimp only
  by_cases hs : 15000 < now - entry.2.last
  · rw [if_pos hs]
    refine ⟨nodup_keys_mapDelete _ h.1, ?_, h.2.2⟩
    cases mapGet acc.1.espBySsid entry.2.ssid with
    | none => exact h.2.1
    | some e => exact nodup_keys_mapSet _ _ h.2.1
  · rw [if_neg hs]
    exact h

theorem pingSweepConn_wf (now : Nat) (acc : SState × Sends) (c : ConnId)
    (h : stateWF acc.1) : stateWF (pingSweepConn now acc c).1 := by
  unfold pingSweepConn
  dsimp only
  cases mapGet acc.1.conns c with
  | none => exact h
  | some st =>
    dsimp only
    by_cases h1 : st.clientType ≠ "frontend"
    · rw [if_pos h1]
      exact h
    · rw [if_neg h1]
      by_cases h2 : (!st.isAlive) = true
      · rw [if_pos h2]
        refine ⟨h.1, h.2.1, ?_⟩
        show (keysOf (acc.1.frontendByUserId.map _)).Nodup
        rw [keysOf_map_keep]
        · exact h.2.2
        · intro q
          by_cases hq : q.2.ws = c ∧ q.2.status = "online"
          · rw [if_pos hq]
          · rw [if_neg hq]
      · rw [if_neg h2]
        exact h

theorem routeMessage1_wf {s : SState} {c : ConnId} {now : Nat} {m : Msg}
    {s' : SState} {out : Sends}
    (h : routeMessage1 s c now (Payload.obj m) = some (s', out))
    (hwf : stateWF s) : stateWF s' := by
  simp only [routeMessage1] at h
  by_cases h1 : m.type = .str "reconnect"
  · rw [if_pos h1] at h
    have hs' : s' = (reconnect1 s c now m).1 :=
      (congrArg Prod.fst (Option.some.inj h)).symm
    rw [hs']
    exact reconnect1_wf c now m hwf
  · rw [if_neg h1] at h
    by_cases h2 : m.type = .str "heartbeat"
    · rw [if_pos h2] at h
      have hs' : s' = (heartbeat1 s c now m).1 :=
        (congrArg Prod.fst (Option.some.inj h)).symm
      rw [hs']
      exact heartbeat1_wf c now m hwf
    · rw [if_neg h2] at h
      by_cases h3 : m.type = .str "accStatus"
      · rw [if_pos h3] at h
        by_cases h3u : m.userID.truthy = true
        · rw [if_pos h3u] at h
          have hs' : s' = (accStatus1 s c now m).1 :=
            (congrArg Prod.fst (Option.some.inj h)).symm
          rw [hs']
          exact accStatus1_wf c now m hwf
        · rw [if_neg h3u] at h
          have hs' : s' = s := (congrArg Prod.fst (Option.some.inj h)).symm
          rw [hs']
          exact hwf
      · rw [if_neg h3] at h
        by_cases h4 : m.type = .str "logout"
        · rw [if_pos h4] at h
          by_cases h4u : m.userID.truthy = true
          · rw [if_pos h4u] at h
            have hs' : s' = (logout1 s now m).1 :=
              (congrArg Prod.fst (Option.some.inj h)).symm
            rw [hs']
            exact logout1_wf now m hwf
          · rw [if_neg h4u] at h
            have hs' : s' = s := (congrArg Prod.fst (Option.some.inj h)).symm
            rw [hs']
            exact hwf
        · rw [if_neg h4] at h
          by_cases h5 : m.type = .str "deviceSelected"
          · rw [if_pos h5] at h
            exact deviceSelected1_wf h hwf
          · rw [if_neg h5] at h
            by_cases h6 : m.type = .str "connection"
            · rw [if_pos h6] at h
              have hs' : s' = (connection1 s m).1 :=
                (congrArg Prod.fst (Option.some.inj h)).symm
              rw [hs']
              exact hwf
            · rw [if_neg h6] at h
              by_cases h7 : m.type = .str "nfc"
              · rw [if_pos h7] at h
                have hs' : s' = (nfc1 s m).1 :=
                  (congrArg Prod.fst (Option.some.inj h)).symm
                rw [hs']
                exact hwf
              · rw [if_neg h7] at h
                have hs' : s' = s := (congrArg Prod.fst (Option.some.inj h)).symm
                rw [hs']
                exact hwf

/-- C9 (amended): the key-uniqueness half of the invariant — at most one
record per socket, per device identifier and per user identifier — is
preserved by every event: each message handler, close reconciliation,
both sweeps, pong and connection accept.  (The other half — a non-null
session socket being open and registered to this session's key — is
refuted by the counterexample.) -/
theorem C9_directory_uniqueness (s : SState) (e : Event) (s' : SState)
    (out : Sends) (hwf : stateWF s) (hstep : step1 s e = some (s', out)) :
    stateWF s' := by
  cases e with
  | connect c =>
    have hs' : s' = { s with conns := mapSet s.conns c ⟨true, "unknown", true⟩ } :=
      (congrArg Prod.fst (Option.some.inj hstep)).symm
    rw [hs']
    exact hwf
  | msg c now p =>
    cases p with
    | malformed => exact absurd hstep (by simp [step1, routeMessage1])
    | jnull => exact absurd hstep (by simp [step1, routeMessage1])
    | obj m => exact routeMessage1_wf hstep hwf
  | close c now =>
    have hs' : s' = close1 { s with conns := terminate s.conns c } c now :=
      (congrArg Prod.fst (Option.some.inj hstep)).symm
    rw [hs']
    exact close1_wf c now hwf
  | pong c =>
    have hs' : s' = { s with conns := setAlive s.conns c true } :=
      (congrArg Prod.fst (Option.some.inj hstep)).symm
    rw [hs']
    exact hwf
  | devSweep now =>
    have hs' : s' = (deviceSweep1 s now).1 :=
      (congrArg Prod.fst (Option.some.inj hstep)).symm
    rw [hs']
    unfold deviceSweep1
    exact foldl_inv (fun (a : SState × Sends) => stateWF a.1) (deviceSweepStep now)
      s.clients (s, []) hwf (fun a b _ hb => deviceSweepStep_wf now a b hb)
  | pingSweep now =>
    have hs' : s' = (pingSweep1 s now).1 :=
      (congrArg Prod.fst (Option.some.inj hstep)).symm
    rw [hs']
    unfold pingSweep1
    exact foldl_inv (fun (a : SState × Sends) => stateWF a.1) (pingSweepConn now)
      (openConns s.conns) (s, []) hwf (fun a b _ hb => pingSweepConn_wf now a b hb)

/-- State for the C9 counterexample and witness: one open socket, empty
directories. -/
def c9State : SState := ⟨[(0, ⟨true, "unknown", true⟩)], [], [], []⟩

/-- C9 counterexample: after socket 0 heartbeats as "D1" and then as
"D2", session "D1" still holds socket 0 (open), but the registry binds
socket 0 to "D2" — the heartbeat handler rebinds without clearing the old
session, so "if `connection` is non-null, its `boundDeviceId` equals this
session's key" fails in a reachable state. -/
theorem C9_directory_uniqueness_cex :
    (runEvents1 c9State
        [Event.msg 0 5 (Payload.obj (mkHeartbeat (.str "D1"))),
         Event.msg 0 6 (Payload.obj (mkHeartbeat (.str "D2")))]).map
      sessionConnInv = some false := by decide

/-- C9 witness: one heartbeat step from the well-formed `c9State`
preserves well-formedness. -/
theorem C9_directory_uniqueness_witness :
    stateWF c9State ∧
    stateWF (heartbeat1 c9State 0 5 (mkHeartbeat (.str "D1"))).1 :=
  ⟨by constructor <;> simp [c9State, keysOf, stateWF],
   C9_directory_uniqueness c9State (Event.msg 0 5 (Payload.obj (mkHeartbeat (.str "D1"))))
     (heartbeat1 c9State 0 5 (mkHeartbeat (.str "D1"))).1
     (heartbeat1 c9State 0 5 (mkHeartbeat (.str "D1"))).2
     (by constructor <;> simp [c9State, keysOf, stateWF]) rfl⟩

end PpeRelay
